import Mathlib

/-!
Verification of the Codex C linter core (Source/codex.c): a shallow embedding
of the per-line processing pipeline (comment/string sanitizer, brace-depth
tracker, Forbid/Permit pairing monitor, bounded diagnostics store) together
with theorems about its behaviour.

Lines of C source text are modelled as `List Char`; the global mutable state
(`parse_state`, the `errors` array and `error_count`) is threaded explicitly.
All definitions mirror the C source; file/CLI handling and printing are out of
scope.
-/

namespace Codex

/-! ## Configuration constants (codex.c lines 51-72) -/

def MAX_LINE_LENGTH : Nat := 1024
def MAX_FILENAME_LENGTH : Nat := 256
def MAX_ERRORS : Nat := 1000
def MAX_BLOCK_DEPTH : Nat := 32
def LINE_EXCERPT_LIMIT : Nat := 120
def TRUNCATION_START : Nat := 117

/-! ## Error types and records (codex.c lines 83-99) -/

inductive ErrorType where
  | synErr
  | styleErr
  | warnErr
  | compErr
  | commentErr
  deriving DecidableEq, Repr

structure LintError where
  filename : List Char
  line_number : Nat
  column : Nat
  type : ErrorType
  message : List Char
  line_excerpt : List Char
  deriving DecidableEq, Repr

/-- The diagnostics sink: the `errors` array together with `error_count`.
`overflow_notices` counts how many times the one-off warning
"Maximum error count reached" has been printed (a `Printf`, not a stored
record, in the C source). -/
structure ErrorState where
  errors : List LintError
  error_count : Nat
  overflow_notices : Nat
  deriving DecidableEq, Repr

def ErrorState.init : ErrorState := ⟨[], 0, 0⟩

/-! ## Parse state (codex.c lines 102-111) -/

structure ParseState where
  in_multiline_comment : Bool
  brace_depth : Nat
  statement_seen : List Bool
  forbid_active : Bool
  forbid_line : Nat
  permit_line : Nat
  forbid_count : Nat
  permit_count : Nat
  deriving DecidableEq, Repr

/-- `memset(&parse_state, 0, sizeof(parse_state))` at the start of a file. -/
def ParseState.init : ParseState :=
  ⟨false, 0, List.replicate MAX_BLOCK_DEPTH false, false, 0, 0, 0, 0⟩

/-! ## Configuration flags (codex.c lines 120-134), with their default values -/

structure Config where
  validate_amiga_standards : Bool
  validate_ndk_standards : Bool
  validate_c89_standards : Bool
  validate_c99_standards : Bool
  validate_sasc_standards : Bool
  validate_vbcc_standards : Bool
  validate_dice_standards : Bool
  validate_memsafe_standards : Bool
  line_length_limit : Nat
  deriving DecidableEq, Repr

/-- The static initial values of the flag globals, which are also the active
configuration when Codex is invoked with no mode switches. -/
def defaultConfig : Config :=
  ⟨false, false, true, false, false, false, false, false, 256⟩

/-! ## C string primitives over `List Char` -/

/-- Index of the first occurrence of `pat` in `hay` (C `strstr`, as an offset). -/
def strstrIdx (hay pat : List Char) : Option Nat :=
  if pat.isPrefixOf hay then some 0
  else
    match hay with
    | [] => none
    | _ :: rest => (strstrIdx rest pat).map (· + 1)

/-- The suffix of `hay` starting at the first occurrence of `pat`
(C `strstr`, as the tail it points into). -/
def strstrDrop (hay pat : List Char) : Option (List Char) :=
  if pat.isPrefixOf hay then some hay
  else
    match hay with
    | [] => none
    | _ :: rest => strstrDrop rest pat

/-- Index of the first occurrence of character `c` (C `strchr`, as an offset). -/
def strchrIdx (l : List Char) (c : Char) : Option Nat :=
  match l with
  | [] => none
  | x :: rest => if x = c then some 0 else (strchrIdx rest c).map (· + 1)

/-- C `isspace` for the ASCII range used by the linter. -/
def isSpaceC (c : Char) : Bool :=
  c = ' ' || c = '\t' || c = '\n' || c = '\x0d' || c = '\x0b' || c = '\x0c'

/-- C `isdigit`. -/
def isDigitC (c : Char) : Bool :=
  '0' ≤ c && c ≤ '9'

/-- C `islower`. -/
def isLowerC (c : Char) : Bool :=
  'a' ≤ c && c ≤ 'z'

/-- `find_first_non_whitespace` (codex.c lines 927-932). -/
def find_first_non_whitespace (l : List Char) : List Char :=
  l.dropWhile isSpaceC

/-- The delimiter set `" \t\n\r"` used by `strtok` in the line classifier. -/
def strtokWs : List Char := [' ', '\t', '\n', '\x0d']

/-- The delimiter set `" \t\n\r*();,"` used by the keyword scanners. -/
def strtokKw : List Char := [' ', '\t', '\n', '\x0d', '*', '(', ')', ';', ',']

/-- The first `strtok(buf, delims)` token of `l`, if any. -/
def strtok1 (delims l : List Char) : Option (List Char) :=
  let l1 := l.dropWhile (fun c => decide (c ∈ delims))
  match l1 with
  | [] => none
  | _ => some (l1.takeWhile (fun c => decide (c ∉ delims)))

/-- All `strtok` tokens of `l` for delimiter set `delims`
(fuel-driven so that the definition is structurally recursive). -/
def strtokAllAux (delims : List Char) : Nat → List Char → List (List Char)
  | 0, _ => []
  | fuel + 1, l =>
    let l1 := l.dropWhile (fun c => decide (c ∈ delims))
    match l1 with
    | [] => []
    | _ =>
      l1.takeWhile (fun c => decide (c ∉ delims)) ::
        strtokAllAux delims fuel (l1.dropWhile (fun c => decide (c ∉ delims)))

def strtokAll (delims l : List Char) : List (List Char) :=
  strtokAllAux delims l.length l

/-! ## The diagnostics sink operations (codex.c lines 539-603) -/

/-- The stored excerpt of `add_error_with_excerpt`: the first
`LINE_EXCERPT_LIMIT` characters, with `"..."` spliced in at offset
`TRUNCATION_START` when the line was longer than the limit. -/
def mkExcerpt (line_text : Option (List Char)) : List Char :=
  match line_text with
  | none => []
  | some l =>
    if l.length > LINE_EXCERPT_LIMIT then l.take TRUNCATION_START ++ "...".toList
    else l

/-- `add_error_with_excerpt` (codex.c lines 540-571). When the store already
holds `MAX_ERRORS` records the record is dropped; the overflow notice is
printed exactly when `error_count == MAX_ERRORS`, after which `error_count`
is bumped past the capacity so the notice can never print again. -/
def add_error_with_excerpt (es : ErrorState) (filename : List Char)
    (line col : Nat) (ty : ErrorType) (msg : List Char)
    (line_text : Option (List Char)) : ErrorState :=
  if es.error_count ≥ MAX_ERRORS then
    if es.error_count = MAX_ERRORS then
      { es with error_count := es.error_count + 1,
                overflow_notices := es.overflow_notices + 1 }
    else es
  else
    { es with
      errors := es.errors ++
        [⟨filename.take (MAX_FILENAME_LENGTH - 1), line, col, ty,
          msg.take 255, mkExcerpt line_text⟩],
      error_count := es.error_count + 1 }

/-- `add_error` (codex.c lines 574-576). -/
def add_error (es : ErrorState) (filename : List Char) (line col : Nat)
    (ty : ErrorType) (msg : List Char) : ErrorState :=
  add_error_with_excerpt es filename line col ty msg none

/-- `add_codex_comment` (codex.c lines 579-603): a `$CODEX:` comment stored as
an `ERROR_COMMENT` record at column 1, with no excerpt. -/
def add_codex_comment (es : ErrorState) (filename : List Char) (line : Nat)
    (comment : List Char) : ErrorState :=
  if es.error_count ≥ MAX_ERRORS then
    if es.error_count = MAX_ERRORS then
      { es with error_count := es.error_count + 1,
                overflow_notices := es.overflow_notices + 1 }
    else es
  else
    { es with
      errors := es.errors ++
        [⟨filename.take (MAX_FILENAME_LENGTH - 1), line, 1, ErrorType.commentErr,
          (comment.take 255).take 255, []⟩],
      error_count := es.error_count + 1 }

/-- `is_declaration_keyword` (codex.c lines 606-618). -/
def decl_keywords : List (List Char) :=
  ["auto", "char", "const", "double", "enum", "extern", "float", "int", "long",
   "register", "short", "signed", "static", "struct", "typedef", "union",
   "unsigned", "void", "volatile"].map String.toList

def is_declaration_keyword (word : List Char) : Bool :=
  decide (word ∈ decl_keywords)

/-! ## Static keyword and pattern tables (codex.c lines 146-341) -/

def ndk_reserved_words : List (List Char) :=
  ["__saveds", "__save_ds", "__stkargs", "__amigainterrupt"].map String.toList

def non_universal_keywords : List (List Char) :=
  ["__saveds", "__save_ds", "__asm", "__reg", "__stdargs", "__far", "__interrupt",
   "__amigainterrupt", "__chip", "__fast", "__stkargs", "__attribute__",
   "__builtin_expect"].map String.toList

def universal_replacements : List (List Char) :=
  ["__SAVE_DS__", "__SAVE_DS__", "__ASM__", "__REG__", "__STDARGS__", "__FAR__",
   "__INTERRUPT__", "__INTERRUPT__", "__CHIP__", "__FAST__", "__STDARGS__",
   "(none)", "(none)"].map String.toList

def c99_keywords : List (List Char) :=
  ["inline", "restrict", "_Bool", "_Complex", "_Imaginary", "typeof"].map String.toList

def c99_features : List (List Char) :=
  ["//", "//*", "/*//", "//*/",
   "for (int ", "for (char ", "for (long ",
   "struct \x7b .", "struct \x7b .x", "struct \x7b .y",
   "(int[])\x7b", "(char[])\x7b", "(struct Point)\x7b",
   "__VA_ARGS__", "..."].map String.toList

def c99_designated_init_patterns : List (List Char) :=
  ["= \x7b .", "= \x7b.x", "= \x7b.y", "= \x7b.z", "= \x7b.name", "= \x7b.data",
   "= \x7b .x", "= \x7b .y", "= \x7b .z", "= \x7b .name", "= \x7b .data",
   "= \x7b .id", "= \x7b .type", "= \x7b .size", "= \x7b .count", "= \x7b .length",
   "= \x7b .width", "= \x7b .height", "= \x7b .depth", "= \x7b .flags",
   "= \x7b .status"].map String.toList

def c99_compound_literal_patterns : List (List Char) :=
  ["(int[])\x7b", "(char[])\x7b", "(long[])\x7b", "(float[])\x7b", "(double[])",
   "(unsigned int[])\x7b", "(unsigned char[])\x7b", "(unsigned long[])",
   "(struct ", "(union ", "(enum ", ")\x7b", ")\x7b", ")\x7b",
   ")\x7b", ")\x7b", ")\x7b", ")\x7b", ")\x7b", ")\x7b"].map String.toList

def c99_variadic_macro_patterns : List (List Char) :=
  ["__VA_ARGS__", "...", "##__VA_ARGS__", "__VA_OPT__",
   "#define", "##", "__VA_ARGS__", "__VA_OPT__"].map String.toList

def c99_flexible_array_patterns : List (List Char) :=
  ["char data[];", "int items[];", "long values[];", "float samples[];",
   "char name[];", "unsigned char buffer[];", "unsigned int flags[];",
   "short indices[];", "double measurements[];", "void *pointers[];"].map String.toList

def c99_stdlib_functions : List (List Char) :=
  ["snprintf", "vsnprintf", "strdup", "strndup", "strnlen", "strlcpy", "strlcat",
   "asprintf", "vasprintf", "open_memstream", "fmemopen", "getline", "getdelim",
   "strtok_r", "strerror_r", "memset_s", "strcpy_s", "strcat_s", "strncpy_s",
   "strncat_s", "strlen_s", "strcmp_s", "strncmp_s", "strchr_s", "strrchr_s",
   "strstr_s", "strpbrk_s", "strspn_s", "strcspn_s", "strtok_s",
   "round", "lround", "llround", "trunc", "remainder", "fma", "nan",
   "atoll", "strtof", "strtold", "llabs",
   "strtoimax", "strtoumax"].map String.toList

def c89_header_files : List (List Char) :=
  ["<stdio.h>", "<stdlib.h>", "<string.h>", "<ctype.h>", "<math.h>",
   "<time.h>", "<locale.h>", "<setjmp.h>", "<signal.h>", "<errno.h>",
   "<assert.h>", "<limits.h>", "<float.h>"].map String.toList

def c99_header_files : List (List Char) :=
  ["<stdint.h>", "<stdbool.h>", "<complex.h>", "<tgmath.h>", "<fenv.h>",
   "<inttypes.h>", "<wchar.h>", "<wctype.h>", "<uchar.h>", "<threads.h>",
   "<stdatomic.h>", "<stdnoreturn.h>", "<stdalign.h>", "<stdbit.h>"].map String.toList

def stdlib_functions : List (List Char) :=
  ["printf", "scanf", "malloc", "free", "strcpy", "strlen", "fopen", "fclose",
   "fgets", "fputs", "fread", "fwrite", "fseek", "ftell", "rewind", "feof",
   "ferror", "clearerr",
   "strcat", "strcmp", "strncmp", "strncpy", "strncat", "strchr", "strrchr",
   "strstr", "strtok", "strerror", "strdup", "strndup", "strnlen", "strlcpy",
   "strlcat", "sprintf", "vsprintf", "snprintf", "vsnprintf", "sscanf", "fscanf",
   "calloc", "realloc", "memcpy", "memmove", "memcmp", "memset", "memchr",
   "abs", "labs", "llabs", "div", "ldiv", "lldiv", "rand", "srand",
   "atoi", "atol", "atoll", "strtol", "strtoul", "strtoll", "strtoull",
   "exit", "abort", "atexit", "system", "getenv", "setenv", "unsetenv",
   "time", "ctime", "gmtime", "localtime", "mktime", "strftime", "asctime",
   "isalpha", "isdigit", "isalnum", "isspace", "isupper", "islower", "toupper",
   "tolower",
   "sin", "cos", "tan", "asin", "acos", "atan", "atan2", "sinh", "cosh", "tanh",
   "exp", "log", "log10", "pow", "sqrt", "ceil", "floor", "fabs", "fmod",
   "setjmp", "longjmp", "signal", "raise", "qsort", "bsearch"].map String.toList

def amiga_functions : List (List Char) :=
  ["OpenLibrary", "CloseLibrary", "AllocMem", "FreeMem", "CreateMsgPort",
   "DeleteMsgPort", "DoIO", "OpenDevice", "CloseDevice", "ReadArgs", "Open",
   "Close", "Read", "Write"].map String.toList

def memsafe_unsafe_functions : List (List Char) :=
  ["strcpy", "strcat", "sprintf", "gets", "scanf", "fscanf", "sscanf",
   "strtok", "strerror", "tmpnam", "mktemp", "realpath", "vsprintf",
   "atoi", "atol", "atof",
   "getenv"].map String.toList

def memsafe_safe_replacements : List (List Char) :=
  ["strncpy", "strncat", "snprintf", "fgets", "check_return_and_width",
   "check_return_and_width", "check_return_and_width",
   "strtok_r", "strerror_r", "tmpnam_r", "mkstemp", "realpath", "vsnprintf",
   "strtol", "strtol", "strtod",
   "getenv_s or use mutex protection"].map String.toList

def sasc_keywords : List (List Char) :=
  ["__amigainterrupt", "__stkargs", "__attribute__", "__builtin_",
   "__volatile__", "__const__", "__restrict__"].map String.toList

def vbcc_keywords : List (List Char) :=
  ["__saveds", "__save_ds", "__stkargs", "__attribute__", "__builtin_",
   "__volatile__", "__const__", "__restrict__"].map String.toList

/-! ## Table lookup helpers (codex.c lines 1379-1676) -/

/-- Boolean `strstr` containment. -/
def strstrB (hay pat : List Char) : Bool :=
  (strstrIdx hay pat).isSome

/-- Paired-table lookup: first index where `word` matches, projected into the
second table and truncated to the destination buffer size (minus terminator). -/
def pairedLookup (keys vals : List (List Char)) (cap : Nat) (word : List Char) :
    Option (List Char) :=
  match keys, vals with
  | k :: ks, v :: vs =>
    if word = k then some (v.take (cap - 1)) else pairedLookup ks vs cap word
  | _, _ => none

def is_ndk_reserved_word (word : List Char) : Bool :=
  decide (word ∈ ndk_reserved_words)

def is_c99_keyword (word : List Char) : Bool :=
  c99_keywords.any (fun k => strstrB word k)

def is_c99_feature (line : List Char) : Bool :=
  c99_features.any (fun k => strstrB line k)

def is_c99_designated_init (line : List Char) : Bool :=
  c99_designated_init_patterns.any (fun k => strstrB line k)

def is_c99_compound_literal (line : List Char) : Bool :=
  c99_compound_literal_patterns.any (fun k => strstrB line k)

def is_c99_variadic_macro (line : List Char) : Bool :=
  c99_variadic_macro_patterns.any (fun k => strstrB line k)

def is_c99_flexible_array (line : List Char) : Bool :=
  c99_flexible_array_patterns.any (fun k => strstrB line k)

def is_c99_stdlib_function (line : List Char) : Bool :=
  c99_stdlib_functions.any (fun k => strstrB line k)

def is_c99_header_file (line : List Char) : Bool :=
  c99_header_files.any (fun k => strstrB line k)

def is_c89_header_file (line : List Char) : Bool :=
  c89_header_files.any (fun k => strstrB line k)

def is_sasc_keyword (word : List Char) : Bool :=
  decide (word ∈ sasc_keywords)

def is_vbcc_keyword (word : List Char) : Bool :=
  decide (word ∈ vbcc_keywords)

def is_memsafe_unsafe_function (word : List Char) : Bool :=
  decide (word ∈ memsafe_unsafe_functions)

def is_stdlib_function (word : List Char) : Bool :=
  decide (word ∈ stdlib_functions)

def is_amiga_function (word : List Char) : Bool :=
  decide (word ∈ amiga_functions)

def find_memsafe_replacement (word : List Char) : Option (List Char) :=
  pairedLookup memsafe_unsafe_functions memsafe_safe_replacements 256 word

def find_universal_replacement (word : List Char) : Option (List Char) :=
  pairedLookup non_universal_keywords universal_replacements 64 word

/-! ## Diagnostic message texts -/

def msgForbidNoPermit : List Char :=
  "Forbid() called without matching Permit() from previous Forbid()".toList

def msgForbidUsage : List Char :=
  "Forbid() usage detected".toList

def msgPermitNoForbid : List Char :=
  "Permit() called without matching Forbid()".toList

def msgTooManyLines : List Char :=
  "Too many lines (>5) between Forbid() and Permit()".toList

def msgForbidUnmatched : List Char :=
  "Forbid() used without matching Permit()".toList

def msgMismatchPairs : List Char :=
  "Mismatched Forbid()/Permit() pairs: count mismatch".toList

def msgEndsActive : List Char :=
  "File ends with active Forbid() without matching Permit()".toList

def msgDeclAfterStmt : List Char :=
  "Variable declaration after a statement is not allowed in C89.".toList

def msgCppComment : List Char :=
  "C++ comments (\x27//\x27) are not allowed in C89.".toList

def msgMagic : List Char :=
  "Magic number found. Consider using a named constant.".toList

def msgLineLen : List Char :=
  "Line exceeds maximum length.".toList

def msgUnterminated : List Char :=
  "File ends with an unterminated \x27/*\x27 comment.".toList

/-! ## Standards checkers (codex.c lines 988-1376, 1535-1608) -/

/-- `check_c89_standards` (codex.c lines 1165-1252). -/
def check_c89_standards (cfg : Config) (line : List Char) (line_num : Nat)
    (fname _orig : List Char) (es : ErrorState) : ErrorState :=
  let es :=
    if strstrB line "//".toList && !cfg.validate_sasc_standards then
      add_error es fname line_num 1 ErrorType.synErr
        "C++ comments (\x27//\x27) are not allowed in C89".toList
    else es
  let es :=
    if strstrB line "inline".toList then
      add_error es fname line_num 1 ErrorType.synErr
        "\x27inline\x27 keyword is not available in C89".toList
    else es
  let es :=
    if strstrB line "_Bool".toList then
      add_error es fname line_num 1 ErrorType.synErr
        "_Bool type is not available in C89".toList
    else es
  let es :=
    if strstrB line "restrict".toList then
      add_error es fname line_num 1 ErrorType.synErr
        "\x27restrict\x27 keyword is not available in C89".toList
    else es
  let es :=
    if strstrB line "for".toList && strstrB line "int".toList then
      match strstrIdx line "for".toList, strstrIdx line "int".toList with
      | some for_pos, some int_pos =>
        if for_pos < int_pos then
          add_error es fname line_num 1 ErrorType.synErr
            "Variable declaration in for loop not allowed in C89".toList
        else es
      | _, _ => es
    else es
  let es :=
    if strstrB line "for".toList &&
        (strstrB line "char ".toList || strstrB line "long ".toList ||
         strstrB line "short ".toList || strstrB line "float ".toList ||
         strstrB line "double ".toList || strstrB line "unsigned ".toList) then
      let type_pos : Option Nat :=
        if strstrB line "char ".toList then strstrIdx line "char ".toList
        else if strstrB line "long ".toList then strstrIdx line "long ".toList
        else if strstrB line "short ".toList then strstrIdx line "short ".toList
        else if strstrB line "float ".toList then strstrIdx line "float ".toList
        else if strstrB line "double ".toList then strstrIdx line "double ".toList
        else if strstrB line "unsigned ".toList then strstrIdx line "unsigned ".toList
        else none
      match type_pos, strstrIdx line "for".toList with
      | some tp, some for_pos =>
        if for_pos < tp then
          add_error es fname line_num 1 ErrorType.synErr
            "Variable declaration in for loop not allowed in C89".toList
        else es
      | _, _ => es
    else es
  let es :=
    if is_c99_designated_init line then
      add_error es fname line_num 1 ErrorType.synErr
        "C99 designated initializer found - not available in C89".toList
    else es
  let es :=
    if is_c99_compound_literal line then
      add_error es fname line_num 1 ErrorType.synErr
        "C99 compound literal found - not available in C89".toList
    else es
  let es :=
    if is_c99_variadic_macro line then
      add_error es fname line_num 1 ErrorType.synErr
        "C99 variadic macro found - not available in C89".toList
    else es
  let es :=
    if is_c99_flexible_array line then
      add_error es fname line_num 1 ErrorType.synErr
        "C99 flexible array member found - not available in C89".toList
    else es
  let es :=
    if is_c99_stdlib_function line then
      add_error es fname line_num 1 ErrorType.synErr
        "C99+ standard library function found - not available in C89".toList
    else es
  let es :=
    if is_c99_header_file line then
      add_error es fname line_num 1 ErrorType.synErr
        "C99+ header file found - not available in C89".toList
    else es
  es

/-- `check_c99_standards` (codex.c lines 1255-1312). -/
def check_c99_standards (line : List Char) (line_num : Nat)
    (fname orig : List Char) (es : ErrorState) : ErrorState :=
  let es :=
    if is_c99_keyword line then
      add_error_with_excerpt es fname line_num 1 ErrorType.warnErr
        "C99 keyword detected - ensure your compiler supports C99".toList (some orig)
    else es
  let es :=
    if is_c99_feature line then
      add_error_with_excerpt es fname line_num 1 ErrorType.warnErr
        "C99 feature detected - ensure your compiler supports C99".toList (some orig)
    else es
  let es :=
    if is_c99_designated_init line then
      add_error_with_excerpt es fname line_num 1 ErrorType.warnErr
        "C99 designated initializer detected - ensure your compiler supports C99".toList
        (some orig)
    else es
  let es :=
    if is_c99_compound_literal line then
      add_error_with_excerpt es fname line_num 1 ErrorType.warnErr
        "C99 compound literal detected - ensure your compiler supports C99".toList
        (some orig)
    else es
  let es :=
    if is_c99_variadic_macro line then
      add_error_with_excerpt es fname line_num 1 ErrorType.warnErr
        "C99 variadic macro detected - ensure your compiler supports C99".toList
        (some orig)
    else es
  let es :=
    if is_c99_flexible_array line then
      add_error_with_excerpt es fname line_num 1 ErrorType.warnErr
        "C99 flexible array member detected - ensure your compiler supports C99".toList
        (some orig)
    else es
  let es :=
    if is_c99_stdlib_function line then
      add_error_with_excerpt es fname line_num 1 ErrorType.warnErr
        "C99+ standard library function detected - ensure your compiler supports C99".toList
        (some orig)
    else es
  let es :=
    if is_c99_header_file line then
      add_error_with_excerpt es fname line_num 1 ErrorType.warnErr
        "C99+ header file detected - ensure your compiler supports C99".toList
        (some orig)
    else es
  es

/-- The delimiter set `" \t\n\r*("` used for the second `strtok` call in
`check_amiga_standards`. -/
def strtokFn : List Char := [' ', '\t', '\n', '\x0d', '*', '(']

/-- The PascalCase function-name fragment of `check_amiga_standards`
(codex.c lines 1112-1130): the name is the second `strtok` token, where the
second call resumes one character past the first token (the delimiter that
`strtok` overwrote with a terminator) and uses the delimiter set `" \t\n\r*("`. -/
def amigaFuncNameTok (line : List Char) : Option (List Char) :=
  let l1 := line.dropWhile (fun c => decide (c ∈ strtokWs))
  match l1 with
  | [] => none
  | _ =>
    let t1 := l1.takeWhile (fun c => decide (c ∉ strtokWs))
    let rest0 := l1.drop t1.length
    let rest := match rest0 with
      | [] => []
      | _ :: t => t
    let l2 := rest.dropWhile (fun c => decide (c ∈ strtokFn))
    match l2 with
    | [] => none
    | _ => some (l2.takeWhile (fun c => decide (c ∉ strtokFn)))

/-- `check_amiga_standards` (codex.c lines 988-1143). -/
def check_amiga_standards (line : List Char) (line_num : Nat)
    (fname orig : List Char) (es : ErrorState) : ErrorState :=
  let es :=
    if (strstrB line "char *".toList && !strstrB line "\x22char *".toList) ||
       (strstrB line "char*".toList && !strstrB line "\x22char*".toList) then
      add_error_with_excerpt es fname line_num 1 ErrorType.warnErr
        "Use Amiga types (UBYTE* or STRPTR) instead of char*".toList (some orig)
    else es
  let es :=
    if (strstrB line "long ".toList && !strstrB line "\x22long ".toList) ||
       (strstrB line "long\t".toList && !strstrB line "\x22long\t".toList) then
      add_error_with_excerpt es fname line_num 1 ErrorType.warnErr
        "Use Amiga types (LONG) instead of long".toList (some orig)
    else es
  let es :=
    if (strstrB line "int ".toList && !strstrB line "\x22int ".toList) ||
       (strstrB line "int\t".toList && !strstrB line "\x22int\t".toList) then
      add_error_with_excerpt es fname line_num 1 ErrorType.warnErr
        "Use Amiga types (ULONG) instead of int".toList (some orig)
    else es
  let es :=
    if (strstrB line "short ".toList && !strstrB line "\x22short ".toList) ||
       (strstrB line "short\t".toList && !strstrB line "\x22short\t".toList) then
      add_error_with_excerpt es fname line_num 1 ErrorType.warnErr
        "Use Amiga types (WORD) instead of short".toList (some orig)
    else es
  let es :=
    if (strstrB line "unsigned long".toList && !strstrB line "\x22unsigned long".toList) ||
       (strstrB line "unsigned char".toList && !strstrB line "\x22unsigned char".toList) ||
       (strstrB line "unsigned short".toList && !strstrB line "\x22unsigned short".toList) ||
       (strstrB line "unsigned int".toList && !strstrB line "\x22unsigned int".toList) then
      add_error_with_excerpt es fname line_num 1 ErrorType.styleErr
        "Use Amiga primitive types (ULONG, UBYTE, UWORD) instead of standard C types".toList
        (some orig)
    else es
  let es :=
    if strstrB line "USHORT".toList || strstrB line "ushort".toList then
      add_error_with_excerpt es fname line_num 1 ErrorType.warnErr
        "USHORT is deprecated - use UWORD instead".toList (some orig)
    else es
  let es :=
    if strstrB line "SHORT".toList || strstrB line "short".toList then
      add_error_with_excerpt es fname line_num 1 ErrorType.warnErr
        "SHORT is deprecated - use WORD instead".toList (some orig)
    else es
  let es :=
    if strstrB line "COUNT".toList || strstrB line "count".toList then
      add_error_with_excerpt es fname line_num 1 ErrorType.warnErr
        "COUNT is deprecated - use WORD instead".toList (some orig)
    else es
  let es :=
    if strstrB line "UCOUNT".toList || strstrB line "ucount".toList then
      add_error_with_excerpt es fname line_num 1 ErrorType.warnErr
        "UCOUNT is deprecated - use UWORD instead".toList (some orig)
    else es
  let es :=
    if strstrB line "CPTR".toList || strstrB line "cptr".toList then
      add_error_with_excerpt es fname line_num 1 ErrorType.warnErr
        "CPTR is deprecated - use ULONG instead".toList (some orig)
    else es
  let es :=
    if strstrB line "LONGBITS".toList || strstrB line "longbits".toList then
      add_error_with_excerpt es fname line_num 1 ErrorType.warnErr
        "LONGBITS is for bit manipulation - consider if you really need this".toList
        (some orig)
    else es
  let es :=
    if strstrB line "WORDBITS".toList || strstrB line "wordbits".toList then
      add_error_with_excerpt es fname line_num 1 ErrorType.warnErr
        "WORDBITS is for bit manipulation - consider if you really need this".toList
        (some orig)
    else es
  let es :=
    if strstrB line "BYTEBITS".toList || strstrB line "bytebits".toList then
      add_error_with_excerpt es fname line_num 1 ErrorType.warnErr
        "BYTEBITS is for bit manipulation - consider if you really need this".toList
        (some orig)
    else es
  let es :=
    if strstrB line "RPTR".toList || strstrB line "rptr".toList then
      add_error_with_excerpt es fname line_num 1 ErrorType.warnErr
        "RPTR is for relative pointers - consider if you really need this".toList
        (some orig)
    else es
  let es :=
    if strstrB line "float ".toList || strstrB line "float\t".toList then
      add_error_with_excerpt es fname line_num 1 ErrorType.warnErr
        "Use Amiga types (FLOAT) instead of float".toList (some orig)
    else es
  let es :=
    if strstrB line "double ".toList || strstrB line "double\t".toList then
      add_error_with_excerpt es fname line_num 1 ErrorType.warnErr
        "Use Amiga types (DOUBLE) instead of double".toList (some orig)
    else es
  let es :=
    if strstrB line "bool ".toList || strstrB line "bool\t".toList then
      add_error_with_excerpt es fname line_num 1 ErrorType.warnErr
        "Use Amiga types (BOOL) instead of bool".toList (some orig)
    else es
  let es :=
    if strstrB line "void *".toList || strstrB line "void*".toList then
      add_error_with_excerpt es fname line_num 1 ErrorType.warnErr
        "Consider using Amiga types (APTR) instead of void* for untyped pointers".toList
        (some orig)
    else es
  let es :=
    if strstrB line "const char *".toList || strstrB line "const char*".toList then
      add_error_with_excerpt es fname line_num 1 ErrorType.warnErr
        "Use Amiga types (CONST_STRPTR) instead of const char*".toList (some orig)
    else es
  let es :=
    if strstrB line "unsigned char *".toList || strstrB line "unsigned char*".toList then
      add_error_with_excerpt es fname line_num 1 ErrorType.warnErr
        "Use Amiga types (STRPTR) instead of unsigned char* for strings".toList
        (some orig)
    else es
  let es :=
    match strtok1 strtokWs line with
    | none => es
    | some _ =>
      if (strchrIdx line '(').isSome then
        match amigaFuncNameTok line with
        | none => es
        | some func_name =>
          match func_name with
          | [] => es
          | c0 :: _ =>
            if !is_stdlib_function func_name && !is_amiga_function func_name &&
                isLowerC c0 then
              add_error_with_excerpt es fname line_num 1 ErrorType.warnErr
                "Use PascalCase function names".toList (some orig)
            else es
      else es
  let es :=
    if strstrB line "*".toList && strstrB line "= 0".toList &&
        !strstrB line "== 0".toList then
      add_error_with_excerpt es fname line_num 1 ErrorType.styleErr
        "Assigning 0 to a pointer. Use the Amiga constant NULL instead.".toList
        (some orig)
    else es
  es

/-- `check_ndk_standards` (codex.c lines 1146-1162): one diagnostic per token
that is an NDK reserved word. -/
def check_ndk_standards (line : List Char) (line_num : Nat)
    (fname _orig : List Char) (es : ErrorState) : ErrorState :=
  (strtokAll strtokWs line).foldl
    (fun es tok =>
      if is_ndk_reserved_word tok then
        add_error es fname line_num 1 ErrorType.compErr
          "NDK reserved word found - use universal syntax instead".toList
      else es)
    es

/-- The message built by `check_sasc_standards` for an incompatible keyword. -/
def sascMsg (tok : List Char) : List Char :=
  (match find_universal_replacement tok with
   | some r =>
     if r ≠ "(none)".toList then
       "Keyword \x27".toList ++ tok ++
         "\x27 is incompatible with SAS/C. Use universal syntax \x27".toList ++
         r ++ "\x27 instead.".toList
     else
       "Keyword \x27".toList ++ tok ++
         "\x27 is incompatible with SAS/C and has no direct universal equivalent.".toList
   | none =>
     "Keyword \x27".toList ++ tok ++
       "\x27 is incompatible with SAS/C and has no direct universal equivalent.".toList).take 255

/-- `check_sasc_standards` (codex.c lines 1315-1344): report the first
SAS/C-incompatible token, then stop. -/
def check_sasc_standards (line : List Char) (line_num : Nat)
    (fname _orig : List Char) (es : ErrorState) : ErrorState :=
  match (strtokAll strtokKw line).find? (fun tok => is_sasc_keyword tok) with
  | none => es
  | some tok => add_error es fname line_num 1 ErrorType.compErr (sascMsg tok)

/-- The message built by `check_vbcc_standards` for an incompatible keyword. -/
def vbccMsg (tok : List Char) : List Char :=
  (match find_universal_replacement tok with
   | some r =>
     if r ≠ "(none)".toList then
       "Keyword \x27".toList ++ tok ++
         "\x27 is incompatible with VBCC. Use universal syntax \x27".toList ++
         r ++ "\x27 instead.".toList
     else
       "Keyword \x27".toList ++ tok ++
         "\x27 is incompatible with VBCC and has no direct universal equivalent.".toList
   | none =>
     "Keyword \x27".toList ++ tok ++
       "\x27 is incompatible with VBCC and has no direct universal equivalent.".toList).take 255

/-- `check_vbcc_standards` (codex.c lines 1347-1376). -/
def check_vbcc_standards (line : List Char) (line_num : Nat)
    (fname _orig : List Char) (es : ErrorState) : ErrorState :=
  match (strtokAll strtokKw line).find? (fun tok => is_vbcc_keyword tok) with
  | none => es
  | some tok => add_error es fname line_num 1 ErrorType.compErr (vbccMsg tok)

/-- The message built by `check_dice_standards` for an incompatible keyword. -/
def diceMsg (tok : List Char) : List Char :=
  (match find_universal_replacement tok with
   | some r =>
     if r ≠ "(none)".toList then
       "Keyword \x27".toList ++ tok ++
         "\x27 is DICE-incompatible. Use universal syntax \x27".toList ++
         r ++ "\x27 instead.".toList
     else
       "Keyword \x27".toList ++ tok ++
         "\x27 is DICE-incompatible and has no direct universal equivalent.".toList
   | none =>
     "Keyword \x27".toList ++ tok ++
       "\x27 is DICE-incompatible and has no direct universal equivalent.".toList).take 255

/-- `check_dice_standards` (codex.c lines 1535-1566). -/
def check_dice_standards (line : List Char) (line_num : Nat)
    (fname _orig : List Char) (es : ErrorState) : ErrorState :=
  match (strtokAll strtokKw line).find? (fun tok => is_ndk_reserved_word tok) with
  | none => es
  | some tok => add_error es fname line_num 1 ErrorType.compErr (diceMsg tok)

/-- The message built by `check_memsafe_standards` for an unsafe function. -/
def memsafeMsg (tok repl : List Char) : List Char :=
  (if tok = "realpath".toList then
     "Unsafe use of \x27realpath\x27 suspected. Ensure the second argument is a valid buffer, not NULL.".toList
   else if tok = "scanf".toList || tok = "sscanf".toList then
     "Unsafe use of \x27".toList ++ tok ++
       "\x27 suspected. Ensure format string uses width specifiers (e.g., \x27%10s\x27) and check the return value.".toList
   else
     "Memory-unsafe function \x27".toList ++ tok ++
       "\x27 found - consider using \x27".toList ++ repl ++ "\x27 instead".toList).take 511

/-- `check_memsafe_standards` (codex.c lines 1569-1608): report the first
unsafe token that has a known replacement, then stop. -/
def check_memsafe_standards (line : List Char) (line_num : Nat)
    (fname _orig : List Char) (es : ErrorState) : ErrorState :=
  match (strtokAll strtokKw line).find?
      (fun tok => is_memsafe_unsafe_function tok &&
        (find_memsafe_replacement tok).isSome) with
  | none => es
  | some tok =>
    match find_memsafe_replacement tok with
    | none => es
    | some repl =>
      add_error es fname line_num 1 ErrorType.warnErr (memsafeMsg tok repl)

/-! ## Magic-number check (codex.c lines 1799-1819) -/

def magicPrevSet : List Char := "+-*/%=(<>,".toList

def magicSkipSet : List Char := ['\x7b', ',']

/-- The scanning loop of `check_for_magic_numbers`: a digit not inside a string
literal, preceded by an operator or parenthesis but not by an initializer
brace or comma, is flagged once and the scan stops. -/
def magicLoop (fname orig : List Char) (line_num : Nat) :
    List Char → Option Char → Nat → Bool → ErrorState → ErrorState
  | [], _, _, _, es => es
  | c :: rest, prev, pos, in_string, es =>
    let in_string := if c = '\x22' then !in_string else in_string
    if !in_string && isDigitC c &&
        (match prev with
         | some pc => decide (pc ∈ magicPrevSet)
         | none => false) then
      if (match prev with
          | some pc => decide (pc ∉ magicSkipSet)
          | none => false) then
        add_error_with_excerpt es fname line_num (pos + 1) ErrorType.styleErr
          msgMagic (some orig)
      else magicLoop fname orig line_num rest (some c) (pos + 1) in_string es
    else magicLoop fname orig line_num rest (some c) (pos + 1) in_string es

/-- `check_for_magic_numbers` (codex.c lines 1799-1819). -/
def check_for_magic_numbers (line : List Char) (line_num : Nat)
    (fname orig : List Char) (es : ErrorState) : ErrorState :=
  magicLoop fname orig line_num line none 0 false es

/-! ## Forbid/Permit pairing monitor (codex.c lines 1679-1796) -/

/-- The position of the enter-call pattern: `strstr(line, "Forbid(")`, falling
back to `strstr(line, "Forbid (")`. -/
def forbidPos (line : List Char) : Option Nat :=
  match strstrIdx line "Forbid(".toList with
  | some i => some i
  | none => strstrIdx line "Forbid (".toList

/-- The position of the leave-call pattern: `strstr(line, "Permit(")`, falling
back to `strstr(line, "Permit (")`. -/
def permitPos (line : List Char) : Option Nat :=
  match strstrIdx line "Permit(".toList with
  | some i => some i
  | none => strstrIdx line "Permit (".toList

/-- `check_forbid_permit_pairs` (codex.c lines 1679-1774). -/
def check_forbid_permit_pairs (line : List Char) (line_num : Nat)
    (fname orig : List Char) (ps : ParseState) (es : ErrorState) :
    ParseState × ErrorState :=
  match forbidPos line, permitPos line with
  | some fp, some pp =>
    if fp < pp then
      let ps := { ps with forbid_count := ps.forbid_count + 1 }
      let (ps, es) :=
        if ps.forbid_active then
          (ps, add_error_with_excerpt es fname line_num (fp + 1) ErrorType.warnErr
            msgForbidNoPermit (some orig))
        else
          ({ ps with forbid_active := true, forbid_line := line_num },
           add_error_with_excerpt es fname line_num (fp + 1) ErrorType.warnErr
             msgForbidUsage (some orig))
      let ps := { ps with permit_count := ps.permit_count + 1 }
      if ps.forbid_active then
        let es :=
          if 5 < line_num - ps.forbid_line then
            add_error_with_excerpt es fname line_num (pp + 1) ErrorType.warnErr
              msgTooManyLines (some orig)
          else es
        ({ ps with permit_line := line_num, forbid_active := false }, es)
      else (ps, es)
    else
      let ps := { ps with permit_count := ps.permit_count + 1 }
      let es := add_error_with_excerpt es fname line_num (pp + 1) ErrorType.warnErr
        msgPermitNoForbid (some orig)
      let ps := { ps with forbid_count := ps.forbid_count + 1,
                          forbid_active := true, forbid_line := line_num }
      let es := add_error_with_excerpt es fname line_num (fp + 1) ErrorType.warnErr
        msgForbidUsage (some orig)
      (ps, es)
  | some fp, none =>
    let ps := { ps with forbid_count := ps.forbid_count + 1 }
    if ps.forbid_active then
      (ps, add_error_with_excerpt es fname line_num (fp + 1) ErrorType.warnErr
        msgForbidNoPermit (some orig))
    else
      ({ ps with forbid_active := true, forbid_line := line_num },
       add_error_with_excerpt es fname line_num (fp + 1) ErrorType.warnErr
         msgForbidUsage (some orig))
  | none, some pp =>
    let ps := { ps with permit_count := ps.permit_count + 1 }
    if !ps.forbid_active then
      (ps, add_error_with_excerpt es fname line_num (pp + 1) ErrorType.warnErr
        msgPermitNoForbid (some orig))
    else
      let es :=
        if 5 < line_num - ps.forbid_line then
          add_error_with_excerpt es fname line_num (pp + 1) ErrorType.warnErr
            msgTooManyLines (some orig)
        else es
      ({ ps with permit_line := line_num, forbid_active := false }, es)
  | none, none => (ps, es)

/-- `validate_forbid_permit_pairs` (codex.c lines 1777-1796): end-of-file
finalization of the pairing monitor. -/
def validate_forbid_permit_pairs (fname : List Char) (ps : ParseState)
    (es : ErrorState) : ErrorState :=
  if 0 < ps.forbid_count || 0 < ps.permit_count then
    let es :=
      if 0 < ps.forbid_count && ps.permit_count = 0 then
        add_error es fname ps.forbid_line 1 ErrorType.warnErr msgForbidUnmatched
      else if ps.forbid_count = 0 && 0 < ps.permit_count then
        es
      else if ps.forbid_count ≠ ps.permit_count then
        add_error es fname 1 1 ErrorType.warnErr msgMismatchPairs
      else es
    if ps.forbid_active then
      add_error es fname ps.forbid_line 1 ErrorType.warnErr msgEndsActive
    else es
  else es

/-! ## The line sanitizer (the state machine inlined in `process_line`,
codex.c lines 644-686) -/

/-- The outcome of the sanitizing scan of one raw line: the comment-free text,
the outgoing block-comment flag, the (possibly grown) diagnostics store, and
whether `process_line` returned early from inside the scan (the C++-comment
diagnostic path). -/
structure SanOut where
  clean : List Char
  incm : Bool
  es : ErrorState
  early : Bool
  deriving DecidableEq, Repr

/-- The sanitizing scan. `pos` is the offset of the current character in the
raw line (for the diagnostic column `s - line + 1`); `incm`, `instr`, `inch`
are `parse_state.in_multiline_comment`, `in_string` and `in_char_literal`.
Compared against codex.c lines 644-686 case by case:
close marker while in a comment; open marker; line-comment marker (with the
C89 diagnostic and its early return); escape pair inside a quote; quote
toggling and plain copy. An escape as the very last character fails the
`*(s+1) != '\0'` test and is copied as a plain character. -/
def sanitize_loop (cfg : Config) (fname orig : List Char)
    (line_num initial : Nat) :
    Nat → List Char → Nat → Bool → Bool → Bool → ErrorState → SanOut
  | _, [], _, incm, _, _, es => ⟨[], incm, es, false⟩
  | 0, _ :: _, _, incm, _, _, es => ⟨[], incm, es, false⟩
  | fuel + 1, c :: rest, pos, incm, instr, inch, es =>
    if incm then
      match c, rest with
      | '*', '/' :: rest2 =>
        sanitize_loop cfg fname orig line_num initial fuel rest2 (pos + 2) false instr inch es
      | _, _ =>
        sanitize_loop cfg fname orig line_num initial fuel rest (pos + 1) true instr inch es
    else
      match c, rest with
      | '/', '*' :: rest2 =>
        sanitize_loop cfg fname orig line_num initial fuel rest2 (pos + 2) true instr inch es
      | '/', '/' :: _ =>
        if cfg.validate_c89_standards && !cfg.validate_sasc_standards then
          let es2 := add_error_with_excerpt es fname line_num (pos + 1)
            ErrorType.synErr msgCppComment (some orig)
          if initial < es2.error_count then ⟨[], incm, es2, true⟩
          else ⟨[], incm, es2, false⟩
        else ⟨[], incm, es, false⟩
      | _, _ =>
        match rest with
        | c2 :: rest2 =>
          if (instr || inch) && c = '\\' then
            let r := sanitize_loop cfg fname orig line_num initial fuel rest2 (pos + 2)
              incm instr inch es
            ⟨c :: c2 :: r.clean, r.incm, r.es, r.early⟩
          else
            let instr2 := if c = '\x22' then !instr else instr
            let inch2 := if c = '\x27' then !inch else inch
            let r := sanitize_loop cfg fname orig line_num initial fuel rest (pos + 1)
              incm instr2 inch2 es
            ⟨c :: r.clean, r.incm, r.es, r.early⟩
        | [] => ⟨[c], incm, es, false⟩

/-- The sanitizing scan of a whole raw line. The fuel argument of
`sanitize_loop` only makes the recursion structural; one unit is spent per
loop iteration and each iteration consumes at least one character, so
`line.length` units never run out. -/
def sanitize_run (cfg : Config) (fname orig : List Char)
    (line_num initial : Nat) (line : List Char) (incm : Bool)
    (es : ErrorState) : SanOut :=
  sanitize_loop cfg fname orig line_num initial line.length line 0 incm false false es

/-! ## `$CODEX:` comment extraction (codex.c lines 692-714) -/

def codexMarker : List Char := "$CODEX:".toList

/-- The body of the `$CODEX:` block: find the marker in the original line,
skip it and any following spaces/tabs, and if anything remains record it
(cut short at the first `/` or `*`) as a comment diagnostic. -/
def codex_step (fname orig : List Char) (line_num : Nat) (es : ErrorState) :
    ErrorState :=
  match strstrDrop orig codexMarker with
  | none => es
  | some suf =>
    let comment_start := (suf.drop 7).dropWhile (fun c => c = ' ' || c = '\t')
    match comment_start with
    | [] => es
    | _ =>
      let comment := (comment_start.takeWhile (fun c => c ≠ '/' && c ≠ '*')).take 255
      add_codex_comment es fname line_num comment

/-- The `$CODEX:` block runs only when no diagnostic has fired for this line
yet (`error_count == initial_error_count`). -/
def codex_phase (initial : Nat) (fname orig : List Char) (line_num : Nat)
    (es : ErrorState) : ErrorState :=
  if es.error_count = initial then codex_step fname orig line_num es else es

/-! ## Brace-depth update (codex.c lines 805-820) -/

/-- One step of the depth-update loop: `{` increments the depth (when below
`MAX_BLOCK_DEPTH - 1`) and clears `statement_seen` for the newly entered
depth; `}` clears `statement_seen` for the depth being left and decrements
(when above zero). -/
def braceStep (ps : ParseState) (c : Char) : ParseState :=
  if c = '\x7b' then
    if ps.brace_depth < MAX_BLOCK_DEPTH - 1 then
      { ps with brace_depth := ps.brace_depth + 1,
                statement_seen := ps.statement_seen.set (ps.brace_depth + 1) false }
    else ps
  else if c = '\x7d' then
    if 0 < ps.brace_depth then
      { ps with statement_seen := ps.statement_seen.set ps.brace_depth false,
                brace_depth := ps.brace_depth - 1 }
    else ps
  else ps

/-- The depth-update loop over the sanitized line. -/
def updateBlockState (line : List Char) (ps : ParseState) : ParseState :=
  line.foldl braceStep ps

/-- The pure shadow of `braceStep` on the depth counter alone. -/
def depthStep (d : Nat) (c : Char) : Nat :=
  if c = '\x7b' then (if d < MAX_BLOCK_DEPTH - 1 then d + 1 else d)
  else if c = '\x7d' then (if 0 < d then d - 1 else d)
  else d

/-- The pure shadow of `updateBlockState` on the depth counter alone. -/
def depthFold (line : List Char) (d : Nat) : Nat :=
  line.foldl depthStep d

/-! ## C89 declaration-placement classification (codex.c lines 766-797) -/

/-- The declaration-placement block of `process_line`: classify the trimmed
line by its first token; a declaration keyword followed by a semicolon that
precedes any parenthesis is a simple declaration, flagged when a statement
was already seen at the current positive depth; `case`/`default`/a closing
brace change nothing; anything else marks `statement_seen` at the current
depth. -/
def c89_decl_placement (clean trimmed : List Char) (line_num : Nat)
    (fname orig : List Char) (ps : ParseState) (es : ErrorState) :
    ParseState × ErrorState :=
  match strtok1 strtokWs trimmed with
  | none => (ps, es)
  | some first_word =>
    if is_declaration_keyword first_word then
      match strchrIdx trimmed ';' with
      | some semicolon_pos =>
        if (match strchrIdx trimmed '(' with
            | none => true
            | some paren_pos => semicolon_pos < paren_pos) then
          if 0 < ps.brace_depth ∧ ps.statement_seen.getD ps.brace_depth false then
            (ps, add_error_with_excerpt es fname line_num
              (clean.length - trimmed.length + 1) ErrorType.synErr
              msgDeclAfterStmt (some orig))
          else (ps, es)
        else (ps, es)
      | none => (ps, es)
    else
      if first_word ≠ "case".toList ∧ first_word ≠ "default".toList ∧
          trimmed.head? ≠ some '\x7d' then
        if 0 < ps.brace_depth then
          ({ ps with statement_seen := ps.statement_seen.set ps.brace_depth true }, es)
        else (ps, es)
      else (ps, es)

/-! ## The `process_line` driver (codex.c lines 621-823), split into its
checkpointed stages. Every `if (error_count > initial_error_count) return;`
of the C source is one `if ctx.initial < ...` test here. -/

structure LineCtx where
  cfg : Config
  clean : List Char
  trimmed : List Char
  line_num : Nat
  fname : List Char
  orig : List Char
  initial : Nat

/-- Final stage: line-length style check (codex.c lines 800-803), then the
depth update (lines 805-820), reached only when nothing fired. -/
def stage_length (ctx : LineCtx) (ps : ParseState) (es : ErrorState) :
    ParseState × ErrorState :=
  let es :=
    if ctx.cfg.line_length_limit < ctx.orig.length then
      add_error_with_excerpt es ctx.fname ctx.line_num (ctx.cfg.line_length_limit + 1)
        ErrorType.styleErr msgLineLen (some ctx.orig)
    else es
  if ctx.initial < es.error_count then (ps, es)
  else (updateBlockState ctx.clean ps, es)

/-- Declaration-placement stage (codex.c lines 766-797). -/
def stage_decl (ctx : LineCtx) (ps : ParseState) (es : ErrorState) :
    ParseState × ErrorState :=
  let r :=
    if ctx.cfg.validate_c89_standards then
      c89_decl_placement ctx.clean ctx.trimmed ctx.line_num ctx.fname ctx.orig ps es
    else (ps, es)
  if ctx.initial < r.2.error_count then r else stage_length ctx r.1 r.2

/-- Forbid/Permit stage (codex.c lines 762-763). -/
def stage_forbid (ctx : LineCtx) (ps : ParseState) (es : ErrorState) :
    ParseState × ErrorState :=
  let r := check_forbid_permit_pairs ctx.clean ctx.line_num ctx.fname ctx.orig ps es
  if ctx.initial < r.2.error_count then r else stage_decl ctx r.1 r.2

/-- Magic-number stage (codex.c lines 758-759). -/
def stage_magic (ctx : LineCtx) (ps : ParseState) (es : ErrorState) :
    ParseState × ErrorState :=
  let es := check_for_magic_numbers ctx.clean ctx.line_num ctx.fname ctx.orig es
  if ctx.initial < es.error_count then (ps, es) else stage_forbid ctx ps es

/-- MEMSAFE standards stage (codex.c lines 752-755). -/
def stage_memsafe (ctx : LineCtx) (ps : ParseState) (es : ErrorState) :
    ParseState × ErrorState :=
  if ctx.cfg.validate_memsafe_standards then
    let es := check_memsafe_standards ctx.clean ctx.line_num ctx.fname ctx.orig es
    if ctx.initial < es.error_count then (ps, es) else stage_magic ctx ps es
  else stage_magic ctx ps es

/-- DICE standards stage (codex.c lines 747-750). -/
def stage_dice (ctx : LineCtx) (ps : ParseState) (es : ErrorState) :
    ParseState × ErrorState :=
  if ctx.cfg.validate_dice_standards then
    let es := check_dice_standards ctx.clean ctx.line_num ctx.fname ctx.orig es
    if ctx.initial < es.error_count then (ps, es) else stage_memsafe ctx ps es
  else stage_memsafe ctx ps es

/-- VBCC standards stage (codex.c lines 742-745). -/
def stage_vbcc (ctx : LineCtx) (ps : ParseState) (es : ErrorState) :
    ParseState × ErrorState :=
  if ctx.cfg.validate_vbcc_standards then
    let es := check_vbcc_standards ctx.clean ctx.line_num ctx.fname ctx.orig es
    if ctx.initial < es.error_count then (ps, es) else stage_dice ctx ps es
  else stage_dice ctx ps es

/-- SAS/C standards stage (codex.c lines 737-740). -/
def stage_sasc (ctx : LineCtx) (ps : ParseState) (es : ErrorState) :
    ParseState × ErrorState :=
  if ctx.cfg.validate_sasc_standards then
    let es := check_sasc_standards ctx.clean ctx.line_num ctx.fname ctx.orig es
    if ctx.initial < es.error_count then (ps, es) else stage_vbcc ctx ps es
  else stage_vbcc ctx ps es

/-- NDK standards stage (codex.c lines 732-735). -/
def stage_ndk (ctx : LineCtx) (ps : ParseState) (es : ErrorState) :
    ParseState × ErrorState :=
  if ctx.cfg.validate_ndk_standards then
    let es := check_ndk_standards ctx.clean ctx.line_num ctx.fname ctx.orig es
    if ctx.initial < es.error_count then (ps, es) else stage_sasc ctx ps es
  else stage_sasc ctx ps es

/-- Amiga standards stage (codex.c lines 727-730). -/
def stage_amiga (ctx : LineCtx) (ps : ParseState) (es : ErrorState) :
    ParseState × ErrorState :=
  if ctx.cfg.validate_amiga_standards then
    let es := check_amiga_standards ctx.clean ctx.line_num ctx.fname ctx.orig es
    if ctx.initial < es.error_count then (ps, es) else stage_ndk ctx ps es
  else stage_ndk ctx ps es

/-- C99 standards stage (codex.c lines 722-725). -/
def stage_c99 (ctx : LineCtx) (ps : ParseState) (es : ErrorState) :
    ParseState × ErrorState :=
  if ctx.cfg.validate_c99_standards then
    let es := check_c99_standards ctx.clean ctx.line_num ctx.fname ctx.orig es
    if ctx.initial < es.error_count then (ps, es) else stage_amiga ctx ps es
  else stage_amiga ctx ps es

/-- C89 standards stage (codex.c lines 717-720), the first stage after the
`$CODEX:` block. -/
def stage_c89 (ctx : LineCtx) (ps : ParseState) (es : ErrorState) :
    ParseState × ErrorState :=
  if ctx.cfg.validate_c89_standards then
    let es := check_c89_standards ctx.cfg ctx.clean ctx.line_num ctx.fname ctx.orig es
    if ctx.initial < es.error_count then (ps, es) else stage_c99 ctx ps es
  else stage_c99 ctx ps es

/-- `process_line` (codex.c lines 621-823): sanitize the raw line, bail out on
an empty sanitized line, run the `$CODEX:` block, then the checkpointed
check stages, ending (when nothing fired) with the depth update. -/
def process_line (cfg : Config) (line : List Char) (line_num : Nat)
    (fname : List Char) (ps : ParseState) (es : ErrorState) :
    ParseState × ErrorState :=
  let orig := line.take (MAX_LINE_LENGTH - 1)
  let initial := es.error_count
  let sr := sanitize_run cfg fname orig line_num initial line
    ps.in_multiline_comment es
  let ps1 := { ps with in_multiline_comment := sr.incm }
  if sr.early then (ps1, sr.es)
  else
    let trimmed := find_first_non_whitespace sr.clean
    if trimmed = [] then (ps1, sr.es)
    else
      let es1 := codex_phase initial fname orig line_num sr.es
      stage_c89 ⟨cfg, sr.clean, trimmed, line_num, fname, orig, initial⟩ ps1 es1

/-- The sanitized text of a raw line, as `process_line` computes it. -/
def clean_of (cfg : Config) (line : List Char) (line_num : Nat)
    (fname : List Char) (ps : ParseState) (es : ErrorState) : List Char :=
  (sanitize_run cfg fname (line.take (MAX_LINE_LENGTH - 1)) line_num
    es.error_count line ps.in_multiline_comment es).clean

/-- The per-file loop of `process_file` (codex.c lines 842-850): lines are
numbered from 1 and processed in order. -/
def process_lines (cfg : Config) (fname : List Char) :
    List (List Char) → Nat → ParseState → ErrorState → ParseState × ErrorState
  | [], _, ps, es => (ps, es)
  | l :: rest, n, ps, es =>
    let r := process_line cfg l n fname ps es
    process_lines cfg fname rest (n + 1) r.1 r.2

/-- End-of-file handling of `process_file` (codex.c lines 830-861): fresh
`ParseState`, the per-line loop, the unterminated-comment warning, and the
pairing finalization. -/
def process_file_lines (cfg : Config) (fname : List Char)
    (lines : List (List Char)) (es : ErrorState) : ParseState × ErrorState :=
  let r := process_lines cfg fname lines 1 ParseState.init es
  let es2 :=
    if r.1.in_multiline_comment then
      add_error r.2 fname lines.length 1 ErrorType.warnErr msgUnterminated
    else r.2
  (r.1, validate_forbid_permit_pairs fname r.1 es2)

/-! ## Abstract attempts against the diagnostics sink -/

/-- One attempt to record a diagnostic: either a call to
`add_error_with_excerpt` (also covering `add_error`) or a call to
`add_codex_comment`. -/
inductive SinkOp where
  | report (fname : List Char) (line col : Nat) (ty : ErrorType)
      (msg : List Char) (excerpt : Option (List Char))
  | codexNote (fname : List Char) (line : Nat) (comment : List Char)

def applySinkOp (es : ErrorState) : SinkOp → ErrorState
  | SinkOp.report fname line col ty msg x =>
    add_error_with_excerpt es fname line col ty msg x
  | SinkOp.codexNote fname line comment =>
    add_codex_comment es fname line comment

def applySinkOps (ops : List SinkOp) (es : ErrorState) : ErrorState :=
  ops.foldl applySinkOp es

/-- The "shape" predicate used by the per-stage lemmas below: the
`statement_seen` length is preserved, a grown error count means the depth was
left alone, and an ungrown error count means the depth update ran over the
sanitized line. -/
def StageOk (ctx : LineCtx) (ps : ParseState) (r : ParseState × ErrorState) : Prop :=
  r.1.statement_seen.length = ps.statement_seen.length ∧
  (ctx.initial < r.2.error_count → r.1.brace_depth = ps.brace_depth) ∧
  (r.2.error_count ≤ ctx.initial → r.1.brace_depth = depthFold ctx.clean ps.brace_depth)

/-- The depth invariant declared in the data model: the depth never exceeds
`MAX_BLOCK_DEPTH - 1` (the largest value the update loop can produce) and the
`statement_seen` array keeps its fixed length `MAX_BLOCK_DEPTH`. -/
def GoodParse (ps : ParseState) : Prop :=
  ps.brace_depth ≤ MAX_BLOCK_DEPTH - 1 ∧
  ps.statement_seen.length = MAX_BLOCK_DEPTH

/-! ## Helper lemmas: the depth tracker -/

lemma braceStep_depth (ps : ParseState) (c : Char) :
    (braceStep ps c).brace_depth = depthStep ps.brace_depth c := by
  unfold braceStep depthStep
  split_ifs <;> rfl

lemma braceStep_len (ps : ParseState) (c : Char) :
    (braceStep ps c).statement_seen.length = ps.statement_seen.length := by
  unfold braceStep
  split_ifs <;> simp [List.length_set]

lemma updateBlockState_depth (l : List Char) (ps : ParseState) :
    (updateBlockState l ps).brace_depth = depthFold l ps.brace_depth := by
  induction l generalizing ps with
  | nil => rfl
  | cons c rest ih =>
    simp only [updateBlockState, depthFold, List.foldl_cons] at *
    rw [ih, braceStep_depth]

lemma updateBlockState_len (l : List Char) (ps : ParseState) :
    (updateBlockState l ps).statement_seen.length = ps.statement_seen.length := by
  induction l generalizing ps with
  | nil => rfl
  | cons c rest ih =>
    simp only [updateBlockState, List.foldl_cons] at *
    rw [ih, braceStep_len]

lemma depthStep_le (d : Nat) (c : Char) (h : d ≤ MAX_BLOCK_DEPTH - 1) :
    depthStep d c ≤ MAX_BLOCK_DEPTH - 1 := by
  unfold depthStep
  split_ifs <;> omega

lemma depthFold_le (l : List Char) (d : Nat) (h : d ≤ MAX_BLOCK_DEPTH - 1) :
    depthFold l d ≤ MAX_BLOCK_DEPTH - 1 := by
  induction l generalizing d with
  | nil => exact h
  | cons c rest ih =>
    simp only [depthFold, List.foldl_cons] at *
    exact ih _ (depthStep_le d c h)

lemma depthStep_space (d : Nat) (c : Char) (h : isSpaceC c = true) :
    depthStep d c = d := by
  unfold depthStep
  have h1 : c ≠ '\x7b' := by
    intro hc
    subst hc
    simp [isSpaceC] at h
  have h2 : c ≠ '\x7d' := by
    intro hc
    subst hc
    simp [isSpaceC] at h
  simp [h1, h2]

lemma depthFold_space (l : List Char) (d : Nat) (h : ∀ c ∈ l, isSpaceC c = true) :
    depthFold l d = d := by
  induction l generalizing d with
  | nil => rfl
  | cons c rest ih =>
    simp only [depthFold, List.foldl_cons]
    rw [depthStep_space d c (h c (by simp))]
    exact ih d (fun x hx => h x (by simp [hx]))

/-! ## Helper lemmas: components of `process_line` preserve the tracker
fields they do not own -/

lemma check_forbid_ps (line : List Char) (line_num : Nat) (fname orig : List Char)
    (ps : ParseState) (es : ErrorState) :
    (check_forbid_permit_pairs line line_num fname orig ps es).1.brace_depth =
      ps.brace_depth ∧
    (check_forbid_permit_pairs line line_num fname orig ps es).1.statement_seen =
      ps.statement_seen ∧
    (check_forbid_permit_pairs line line_num fname orig ps es).1.in_multiline_comment =
      ps.in_multiline_comment := by
  unfold check_forbid_permit_pairs
  split <;> dsimp only <;> first
    | (split_ifs <;> simp_all)
    | simp_all

lemma decl_ps (clean trimmed : List Char) (line_num : Nat) (fname orig : List Char)
    (ps : ParseState) (es : ErrorState) :
    (c89_decl_placement clean trimmed line_num fname orig ps es).1.brace_depth =
      ps.brace_depth ∧
    (c89_decl_placement clean trimmed line_num fname orig ps es).1.statement_seen.length =
      ps.statement_seen.length := by
  unfold c89_decl_placement
  repeat' split
  all_goals simp_all [List.length_set]

/-! ## The per-stage "shape" of `process_line`: once a diagnostic is recorded
the depth is left alone, and when nothing is recorded the final depth is the
fold of the sanitized line's braces over the incoming depth. -/

lemma StageOk.transfer {ctx : LineCtx} {ps ps' : ParseState}
    {r : ParseState × ErrorState} (h : StageOk ctx ps' r)
    (hd : ps'.brace_depth = ps.brace_depth)
    (hl : ps'.statement_seen.length = ps.statement_seen.length) :
    StageOk ctx ps r := by
  obtain ⟨h1, h2, h3⟩ := h
  refine ⟨h1.trans hl, fun hh => (h2 hh).trans hd, fun hh => ?_⟩
  rw [h3 hh, hd]

lemma stage_length_ok (ctx : LineCtx) (ps : ParseState) (es : ErrorState) :
    StageOk ctx ps (stage_length ctx ps es) := by
  unfold stage_length StageOk
  dsimp only
  split_ifs <;> try dsimp only at *
  all_goals first
    | exact ⟨rfl, fun _ => rfl, fun hh => absurd hh (by omega)⟩
    | exact ⟨updateBlockState_len _ _, fun hh => absurd hh (by omega),
        fun _ => updateBlockState_depth _ _⟩

lemma stage_decl_ok (ctx : LineCtx) (ps : ParseState) (es : ErrorState) :
    StageOk ctx ps (stage_decl ctx ps es) := by
  unfold stage_decl StageOk
  dsimp only
  split_ifs <;> try dsimp only at *
  all_goals first
    | exact ⟨(decl_ps _ _ _ _ _ _ _).2, fun _ => (decl_ps _ _ _ _ _ _ _).1,
        fun hh => absurd hh (by omega)⟩
    | exact ⟨rfl, fun _ => rfl, fun hh => absurd hh (by omega)⟩
    | exact (stage_length_ok ctx _ _).transfer (decl_ps _ _ _ _ _ _ _).1
        (decl_ps _ _ _ _ _ _ _).2
    | exact stage_length_ok ctx ps es

lemma stage_forbid_ok (ctx : LineCtx) (ps : ParseState) (es : ErrorState) :
    StageOk ctx ps (stage_forbid ctx ps es) := by
  unfold stage_forbid StageOk
  dsimp only
  have hps := check_forbid_ps ctx.clean ctx.line_num ctx.fname ctx.orig ps es
  split_ifs <;> try dsimp only at *
  · exact ⟨by rw [hps.2.1], fun _ => hps.1, fun hh => absurd hh (by omega)⟩
  · exact (stage_decl_ok ctx _ _).transfer hps.1 (by rw [hps.2.1])

lemma stage_magic_ok (ctx : LineCtx) (ps : ParseState) (es : ErrorState) :
    StageOk ctx ps (stage_magic ctx ps es) := by
  unfold stage_magic StageOk
  dsimp only
  split_ifs <;> try dsimp only at *
  · exact ⟨rfl, fun _ => rfl, fun hh => absurd hh (by omega)⟩
  · exact stage_forbid_ok ctx ps _

lemma stage_memsafe_ok (ctx : LineCtx) (ps : ParseState) (es : ErrorState) :
    StageOk ctx ps (stage_memsafe ctx ps es) := by
  unfold stage_memsafe StageOk
  dsimp only
  split_ifs <;> try dsimp only at *
  all_goals first
    | exact ⟨rfl, fun _ => rfl, fun hh => absurd hh (by omega)⟩
    | exact stage_magic_ok ctx ps _

lemma stage_dice_ok (ctx : LineCtx) (ps : ParseState) (es : ErrorState) :
    StageOk ctx ps (stage_dice ctx ps es) := by
  unfold stage_dice StageOk
  dsimp only
  split_ifs <;> try dsimp only at *
  all_goals first
    | exact ⟨rfl, fun _ => rfl, fun hh => absurd hh (by omega)⟩
    | exact stage_memsafe_ok ctx ps _

lemma stage_vbcc_ok (ctx : LineCtx) (ps : ParseState) (es : ErrorState) :
    StageOk ctx ps (stage_vbcc ctx ps es) := by
  unfold stage_vbcc StageOk
  dsimp only
  split_ifs <;> try dsimp only at *
  all_goals first
    | exact ⟨rfl, fun _ => rfl, fun hh => absurd hh (by omega)⟩
    | exact stage_dice_ok ctx ps _

lemma stage_sasc_ok (ctx : LineCtx) (ps : ParseState) (es : ErrorState) :
    StageOk ctx ps (stage_sasc ctx ps es) := by
  unfold stage_sasc StageOk
  dsimp only
  split_ifs <;> try dsimp only at *
  all_goals first
    | exact ⟨rfl, fun _ => rfl, fun hh => absurd hh (by omega)⟩
    | exact stage_vbcc_ok ctx ps _

lemma stage_ndk_ok (ctx : LineCtx) (ps : ParseState) (es : ErrorState) :
    StageOk ctx ps (stage_ndk ctx ps es) := by
  unfold stage_ndk StageOk
  dsimp only
  split_ifs <;> try dsimp only at *
  all_goals first
    | exact ⟨rfl, fun _ => rfl, fun hh => absurd hh (by omega)⟩
    | exact stage_sasc_ok ctx ps _

lemma stage_amiga_ok (ctx : LineCtx) (ps : ParseState) (es : ErrorState) :
    StageOk ctx ps (stage_amiga ctx ps es) := by
  unfold stage_amiga StageOk
  dsimp only
  split_ifs <;> try dsimp only at *
  all_goals first
    | exact ⟨rfl, fun _ => rfl, fun hh => absurd hh (by omega)⟩
    | exact stage_ndk_ok ctx ps _

lemma stage_c99_ok (ctx : LineCtx) (ps : ParseState) (es : ErrorState) :
    StageOk ctx ps (stage_c99 ctx ps es) := by
  unfold stage_c99 StageOk
  dsimp only
  split_ifs <;> try dsimp only at *
  all_goals first
    | exact ⟨rfl, fun _ => rfl, fun hh => absurd hh (by omega)⟩
    | exact stage_amiga_ok ctx ps _

lemma stage_c89_ok (ctx : LineCtx) (ps : ParseState) (es : ErrorState) :
    StageOk ctx ps (stage_c89 ctx ps es) := by
  unfold stage_c89 StageOk
  dsimp only
  split_ifs <;> try dsimp only at *
  all_goals first
    | exact ⟨rfl, fun _ => rfl, fun hh => absurd hh (by omega)⟩
    | exact stage_c99_ok ctx ps _

/-! ## Helper lemmas: the sanitizer's interaction with the error store -/

lemma sanitize_loop_es_spec (cfg : Config) (fname orig : List Char)
    (line_num initial : Nat) :
    ∀ fuel l (pos : Nat) (incm instr inch : Bool) (es : ErrorState),
      ((sanitize_loop cfg fname orig line_num initial fuel l pos incm instr inch es).early = true →
        initial <
          (sanitize_loop cfg fname orig line_num initial fuel l pos incm instr inch es).es.error_count) ∧
      ((sanitize_loop cfg fname orig line_num initial fuel l pos incm instr inch es).early = false →
        (sanitize_loop cfg fname orig line_num initial fuel l pos incm instr inch es).es = es ∨
          (sanitize_loop cfg fname orig line_num initial fuel l pos incm instr inch es).es.error_count ≤ initial) := by
  intro fuel
  induction fuel with
  | zero =>
    intro l pos incm instr inch es
    cases l <;> simp [sanitize_loop]
  | succ fuel ih =>
    intro l pos incm instr inch es
    cases l with
    | nil => simp [sanitize_loop]
    | cons c rest =>
      simp only [sanitize_loop]
      split
      · split
        · exact ih _ _ _ _ _ _
        · exact ih _ _ _ _ _ _
      · split
        · exact ih _ _ _ _ _ _
        · split_ifs with h1 h2 <;> try dsimp only
          · exact ⟨fun _ => h2, fun h => by simp at h⟩
          · exact ⟨fun h => by simp at h, fun _ => Or.inr (by omega)⟩
          · exact ⟨fun h => by simp at h, fun _ => Or.inl rfl⟩
        · split
          · split_ifs <;> dsimp only <;> exact ih _ _ _ _ _ _
          · exact ⟨fun h => by simp at h, fun _ => Or.inl rfl⟩

/-! ## The master lemma about `process_line`: the depth update happens exactly
on the no-diagnostic path -/

lemma process_line_ok (cfg : Config) (line : List Char) (line_num : Nat)
    (fname : List Char) (ps : ParseState) (es : ErrorState) :
    (process_line cfg line line_num fname ps es).1.statement_seen.length =
      ps.statement_seen.length ∧
    (es.error_count < (process_line cfg line line_num fname ps es).2.error_count →
      (process_line cfg line line_num fname ps es).1.brace_depth = ps.brace_depth) ∧
    ((process_line cfg line line_num fname ps es).2.error_count ≤ es.error_count →
      (process_line cfg line line_num fname ps es).1.brace_depth =
        depthFold (clean_of cfg line line_num fname ps es) ps.brace_depth) := by
  unfold process_line clean_of sanitize_run find_first_non_whitespace
  dsimp only
  have hsan := sanitize_loop_es_spec cfg fname (line.take (MAX_LINE_LENGTH - 1))
    line_num es.error_count line.length line 0 ps.in_multiline_comment false false es
  split_ifs with h1 h2
  · refine ⟨rfl, fun _ => rfl, fun hh => ?_⟩
    dsimp only at hh
    have h3 := hsan.1 h1
    omega
  · refine ⟨rfl, fun _ => rfl, fun _ => ?_⟩
    have hclean : ∀ ch ∈ (sanitize_loop cfg fname (line.take (MAX_LINE_LENGTH - 1))
        line_num es.error_count line.length line 0 ps.in_multiline_comment false false es).clean,
        isSpaceC ch = true := by
      rw [← List.dropWhile_eq_nil_iff]
      exact h2
    rw [depthFold_space _ _ hclean]
  · exact ⟨(stage_c89_ok _ _ _).1, fun hh => (stage_c89_ok _ _ _).2.1 hh,
      fun hh => (stage_c89_ok _ _ _).2.2 hh⟩

/-! ## Invariant preservation -/

lemma process_line_inv (cfg : Config) (line : List Char) (line_num : Nat)
    (fname : List Char) (ps : ParseState) (es : ErrorState) (h : GoodParse ps) :
    GoodParse (process_line cfg line line_num fname ps es).1 := by
  obtain ⟨hok1, hok2, hok3⟩ := process_line_ok cfg line line_num fname ps es
  rcases le_or_lt (process_line cfg line line_num fname ps es).2.error_count
      es.error_count with hle | hlt
  · exact ⟨by rw [hok3 hle]; exact depthFold_le _ _ h.1, by rw [hok1]; exact h.2⟩
  · exact ⟨by rw [hok2 hlt]; exact h.1, by rw [hok1]; exact h.2⟩

lemma process_lines_inv (cfg : Config) (fname : List Char) :
    ∀ (lines : List (List Char)) (n : Nat) (ps : ParseState) (es : ErrorState),
      GoodParse ps → GoodParse (process_lines cfg fname lines n ps es).1 := by
  intro lines
  induction lines with
  | nil => intro n ps es h; exact h
  | cons l rest ih =>
    intro n ps es h
    exact ih (n + 1) _ _ (process_line_inv cfg l n fname ps es h)

/-- Below capacity, `add_error_with_excerpt` appends exactly one record. -/
lemma add_excerpt_spec (es : ErrorState) (fname : List Char) (line col : Nat)
    (ty : ErrorType) (msg : List Char) (x : Option (List Char))
    (h : es.error_count < MAX_ERRORS) :
    add_error_with_excerpt es fname line col ty msg x =
      { es with
        errors := es.errors ++
          [⟨fname.take (MAX_FILENAME_LENGTH - 1), line, col, ty, msg.take 255,
            mkExcerpt x⟩],
        error_count := es.error_count + 1 } := by
  unfold add_error_with_excerpt
  rw [if_neg (by omega)]

/-- Below capacity, `add_codex_comment` appends exactly one comment record. -/
lemma add_codex_spec (es : ErrorState) (fname : List Char) (line : Nat)
    (comment : List Char) (h : es.error_count < MAX_ERRORS) :
    add_codex_comment es fname line comment =
      { es with
        errors := es.errors ++
          [⟨fname.take (MAX_FILENAME_LENGTH - 1), line, 1, ErrorType.commentErr,
            comment.take 255, []⟩],
        error_count := es.error_count + 1 } := by
  unfold add_codex_comment
  rw [if_neg (by omega)]
  simp [List.take_take]

/-! # Claims -/

/-- Claim C1, counterexample. The claim states that the brace-depth update is
performed for every processed line regardless of whether a diagnostic fired.
On the line `Forbid(); {` under the default configuration the pairing monitor
emits the "Forbid() usage detected" diagnostic, `process_line` returns at the
checkpoint right after it, and the line's `{` is never applied: the depth
stays 0 even though the depth update over the sanitized line would have
produced 1. -/
theorem c1_counterexample :
    (process_line defaultConfig "Forbid(); \x7b".toList 1 "t.c".toList
      ParseState.init ErrorState.init).1.brace_depth = 0 ∧
    (process_line defaultConfig "Forbid(); \x7b".toList 1 "t.c".toList
      ParseState.init ErrorState.init).2.errors.map LintError.message =
      [msgForbidUsage] ∧
    depthFold (clean_of defaultConfig "Forbid(); \x7b".toList 1 "t.c".toList
      ParseState.init ErrorState.init) 0 = 1 := by
  decide

/-- Claim C1, amended: the depth update runs after all checks only on lines
for which no diagnostic was recorded; when a diagnostic is recorded for the
line, `process_line` returns early and the line's braces are not applied to
the depth state. Formally: if the error count grew, the final depth equals
the incoming depth (braces skipped); if it did not grow, the final depth is
the brace fold of the sanitized line over the incoming depth (the update ran
last). -/
theorem c1_theorem (cfg : Config) (line : List Char) (line_num : Nat)
    (fname : List Char) (ps : ParseState) (es : ErrorState) :
    (es.error_count < (process_line cfg line line_num fname ps es).2.error_count →
      (process_line cfg line line_num fname ps es).1.brace_depth = ps.brace_depth) ∧
    ((process_line cfg line line_num fname ps es).2.error_count ≤ es.error_count →
      (process_line cfg line line_num fname ps es).1.brace_depth =
        depthFold (clean_of cfg line line_num fname ps es) ps.brace_depth) :=
  ⟨(process_line_ok cfg line line_num fname ps es).2.1,
   (process_line_ok cfg line line_num fname ps es).2.2⟩

/-- Witness for C1: both implications of `c1_theorem` discharged at concrete
lines — a diagnostic line (`Forbid(); {`, depth untouched) and a clean line
(`x(); {`, depth update performed). -/
theorem c1_theorem_witness :
    (process_line defaultConfig "Forbid(); \x7b".toList 1 "t.c".toList
      ParseState.init ErrorState.init).1.brace_depth = ParseState.init.brace_depth ∧
    (process_line defaultConfig "x(); \x7b".toList 1 "t.c".toList
      ParseState.init ErrorState.init).1.brace_depth =
      depthFold (clean_of defaultConfig "x(); \x7b".toList 1 "t.c".toList
        ParseState.init ErrorState.init) ParseState.init.brace_depth :=
  ⟨(c1_theorem defaultConfig "Forbid(); \x7b".toList 1 "t.c".toList
      ParseState.init ErrorState.init).1 (by decide),
   (c1_theorem defaultConfig "x(); \x7b".toList 1 "t.c".toList
      ParseState.init ErrorState.init).2 (by decide)⟩

/-- Claim C2, counterexample. The claim states that a `/*` (or `//`) seen
while the line-local quote state is open is not treated as a comment marker.
In the source the comment-marker tests run before and independently of the
quote state: on `x = "a/*b";` the scan is inside a double-quoted literal when
it meets `/*`, yet block-comment mode is entered and the line is cut there
(the marker is not copied to the sanitized output). -/
theorem c2_counterexample :
    sanitize_run defaultConfig "t.c".toList "x = \x22a/*b\x22;".toList 1 0
      "x = \x22a/*b\x22;".toList false ErrorState.init =
      ⟨"x = \x22a".toList, true, ErrorState.init, false⟩ := by
  decide

/-- Claim C2, amended: the sanitizer's comment-marker handling does not
consult the line-local quote state. A `/*` encountered outside a block
comment always enters block-comment mode and skips the marker, whatever
`in_dquote`/`in_squote` are; and the treatment of `//` is identical to its
treatment with both quote flags clear. -/
theorem c2_theorem (cfg : Config) (fname orig : List Char)
    (line_num initial fuel pos : Nat) (instr inch : Bool) (es : ErrorState)
    (rest : List Char) :
    sanitize_loop cfg fname orig line_num initial (fuel + 1) ('/' :: '*' :: rest)
        pos false instr inch es =
      sanitize_loop cfg fname orig line_num initial fuel rest (pos + 2)
        true instr inch es ∧
    sanitize_loop cfg fname orig line_num initial (fuel + 1) ('/' :: '/' :: rest)
        pos false instr inch es =
      sanitize_loop cfg fname orig line_num initial (fuel + 1) ('/' :: '/' :: rest)
        pos false false false es := by
  constructor <;> simp [sanitize_loop]

/-- Claim C3, counterexample. The claim states that on a line with the leave
(Permit) pattern before the enter (Forbid) pattern, each event is processed
by the single-event rules: with `active` true the leave should close the open
pair (distance check, `active := false`) instead of being reported as a leave
without matching enter. In the source the leave-before-enter branch reports
"Permit() called without matching Forbid()" unconditionally: with `active`
true and `enter_line = 1`, line 10 (`Permit(); Forbid();`, distance 9 > 5)
yields that report and no distance diagnostic, and `active` remains true. -/
theorem c3_counterexample :
    (check_forbid_permit_pairs "Permit(); Forbid();".toList 10 "t.c".toList
      "Permit(); Forbid();".toList
      { ParseState.init with forbid_active := true, forbid_line := 1 }
      ErrorState.init).2.errors.map LintError.message =
      [msgPermitNoForbid, msgForbidUsage] ∧
    (check_forbid_permit_pairs "Permit(); Forbid();".toList 10 "t.c".toList
      "Permit(); Forbid();".toList
      { ParseState.init with forbid_active := true, forbid_line := 1 }
      ErrorState.init).1.forbid_active = true := by
  decide

/-- Claim C3, amended: when both patterns are present and the leave occurs at
or before the enter position, the monitor unconditionally (regardless of
`active`, with no distance check) emits "Permit() called without matching
Forbid()" and then "Forbid() usage detected", increments both counts, sets
`active := true` and records `enter_line := line_number`. -/
theorem c3_theorem (line : List Char) (line_num : Nat) (fname orig : List Char)
    (ps : ParseState) (es : ErrorState) (fp pp : Nat)
    (hf : forbidPos line = some fp) (hp : permitPos line = some pp)
    (horder : ¬fp < pp) (hroom : es.error_count + 2 ≤ MAX_ERRORS) :
    (check_forbid_permit_pairs line line_num fname orig ps es).1 =
      { ps with permit_count := ps.permit_count + 1,
                forbid_count := ps.forbid_count + 1,
                forbid_active := true, forbid_line := line_num } ∧
    (check_forbid_permit_pairs line line_num fname orig ps es).2.errors =
      es.errors ++
        [⟨fname.take (MAX_FILENAME_LENGTH - 1), line_num, pp + 1, ErrorType.warnErr,
          msgPermitNoForbid, mkExcerpt (some orig)⟩,
         ⟨fname.take (MAX_FILENAME_LENGTH - 1), line_num, fp + 1, ErrorType.warnErr,
          msgForbidUsage, mkExcerpt (some orig)⟩] ∧
    (check_forbid_permit_pairs line line_num fname orig ps es).2.error_count =
      es.error_count + 2 := by
  have hm1 : msgPermitNoForbid.take 255 = msgPermitNoForbid := by decide
  have hm2 : msgForbidUsage.take 255 = msgForbidUsage := by decide
  unfold MAX_ERRORS at hroom
  unfold check_forbid_permit_pairs
  rw [hf, hp]
  dsimp only
  rw [if_neg horder]
  dsimp only
  unfold add_error_with_excerpt MAX_ERRORS
  split_ifs <;> try dsimp only at *
  all_goals first
    | omega
    | (refine ⟨?_, ?_, ?_⟩ <;> simp [hm1, hm2])

/-- Witness for C3: `c3_theorem` discharged on the concrete line
`Permit(); Forbid();` at line 10 with an open pair from line 1. -/
theorem c3_theorem_witness :
    (check_forbid_permit_pairs "Permit(); Forbid();".toList 10 "t.c".toList
      "Permit(); Forbid();".toList
      { ParseState.init with forbid_active := true, forbid_line := 1 }
      ErrorState.init).1 =
      ⟨false, 0, List.replicate MAX_BLOCK_DEPTH false, true, 10, 0, 1, 1⟩ ∧
    (check_forbid_permit_pairs "Permit(); Forbid();".toList 10 "t.c".toList
      "Permit(); Forbid();".toList
      { ParseState.init with forbid_active := true, forbid_line := 1 }
      ErrorState.init).2.errors =
      [⟨"t.c".toList, 10, 1, ErrorType.warnErr, msgPermitNoForbid,
        mkExcerpt (some "Permit(); Forbid();".toList)⟩,
       ⟨"t.c".toList, 10, 11, ErrorType.warnErr, msgForbidUsage,
        mkExcerpt (some "Permit(); Forbid();".toList)⟩] ∧
    (check_forbid_permit_pairs "Permit(); Forbid();".toList 10 "t.c".toList
      "Permit(); Forbid();".toList
      { ParseState.init with forbid_active := true, forbid_line := 1 }
      ErrorState.init).2.error_count = 2 := by
  have h := c3_theorem "Permit(); Forbid();".toList 10 "t.c".toList
    "Permit(); Forbid();".toList
    { ParseState.init with forbid_active := true, forbid_line := 1 }
    ErrorState.init 10 0 (by decide) (by decide) (by decide) (by decide)
  exact ⟨h.1, h.2.1, h.2.2⟩

/-- Claim C4: if the first whitespace-delimited token of the sanitized
(trimmed) line is a C89 declaration keyword, the line has a semicolon
preceding any opening parenthesis, the depth is positive and
`statement_seen[depth]` is set, then the declaration-placement stage emits
exactly one declaration-after-statement diagnostic, leaves the tracker state
unchanged, and returns without running the remaining checks of the line
(the length check and the depth update); and whenever an opening parenthesis
precedes any semicolon, the declaration-placement block emits nothing at
all. -/
theorem c4_theorem (ctx : LineCtx) (ps : ParseState) (es : ErrorState)
    (w : List Char) (sp : Nat)
    (hc : ctx.cfg.validate_c89_standards = true)
    (hw : strtok1 strtokWs ctx.trimmed = some w)
    (hkw : is_declaration_keyword w = true)
    (hsp : strchrIdx ctx.trimmed ';' = some sp)
    (hpar : ∀ pp, strchrIdx ctx.trimmed '(' = some pp → sp < pp)
    (hdep : 0 < ps.brace_depth)
    (hseen : ps.statement_seen.getD ps.brace_depth false = true)
    (hroom : es.error_count < MAX_ERRORS)
    (hcnt : es.error_count = ctx.initial) :
    stage_decl ctx ps es =
      (ps,
       { es with
         errors := es.errors ++
           [⟨ctx.fname.take (MAX_FILENAME_LENGTH - 1), ctx.line_num,
             ctx.clean.length - ctx.trimmed.length + 1, ErrorType.synErr,
             msgDeclAfterStmt, mkExcerpt (some ctx.orig)⟩],
         error_count := es.error_count + 1 }) ∧
    (∀ (clean2 trimmed2 : List Char) (ln2 : Nat) (fn2 or2 : List Char)
        (ps2 : ParseState) (es2 : ErrorState) (pp2 sp2 : Nat),
      strchrIdx trimmed2 '(' = some pp2 → strchrIdx trimmed2 ';' = some sp2 →
      pp2 < sp2 →
      (c89_decl_placement clean2 trimmed2 ln2 fn2 or2 ps2 es2).2 = es2) := by
  have hmsg : msgDeclAfterStmt.take 255 = msgDeclAfterStmt := by decide
  constructor
  · have hblock :
        c89_decl_placement ctx.clean ctx.trimmed ctx.line_num ctx.fname ctx.orig ps es =
          (ps,
           { es with
             errors := es.errors ++
               [⟨ctx.fname.take (MAX_FILENAME_LENGTH - 1), ctx.line_num,
                 ctx.clean.length - ctx.trimmed.length + 1, ErrorType.synErr,
                 msgDeclAfterStmt, mkExcerpt (some ctx.orig)⟩],
             error_count := es.error_count + 1 }) := by
      unfold c89_decl_placement
      rw [hw]
      dsimp only
      rw [if_pos hkw, hsp]
      dsimp only
      rw [if_pos ?_, if_pos ⟨hdep, hseen⟩]
      · rw [add_excerpt_spec es ctx.fname ctx.line_num
          (ctx.clean.length - ctx.trimmed.length + 1) ErrorType.synErr
          msgDeclAfterStmt (some ctx.orig) hroom, hmsg]
      · cases hpp : strchrIdx ctx.trimmed '(' with
        | none => trivial
        | some pp => exact decide_eq_true (hpar pp hpp)
    unfold stage_decl
    rw [if_pos hc, hblock]
    dsimp only
    rw [if_pos (by omega)]
  · intro clean2 trimmed2 ln2 fn2 or2 ps2 es2 pp2 sp2 hpp2 hsp2 hlt
    unfold c89_decl_placement
    repeat' split
    all_goals try rfl
    all_goals simp_all
    all_goals omega

/-- Witness for C4: the positive half of `c4_theorem` discharged on the line
`int x;` at depth 1 with a statement already seen at that depth. -/
theorem c4_theorem_witness :
    stage_decl ⟨defaultConfig, "int x;".toList, "int x;".toList, 3, "t.c".toList,
        "int x;".toList, 0⟩
      { ParseState.init with
          brace_depth := 1,
          statement_seen := (List.replicate MAX_BLOCK_DEPTH false).set 1 true }
      ErrorState.init =
      ({ ParseState.init with
           brace_depth := 1,
           statement_seen := (List.replicate MAX_BLOCK_DEPTH false).set 1 true },
       { ErrorState.init with
         errors := [⟨"t.c".toList, 3, 1, ErrorType.synErr, msgDeclAfterStmt,
           mkExcerpt (some "int x;".toList)⟩],
         error_count := 1 }) := by
  have h := (c4_theorem
    ⟨defaultConfig, "int x;".toList, "int x;".toList, 3, "t.c".toList,
      "int x;".toList, 0⟩
    { ParseState.init with
        brace_depth := 1,
        statement_seen := (List.replicate MAX_BLOCK_DEPTH false).set 1 true }
    ErrorState.init "int".toList 5 rfl (by decide) (by decide) (by decide)
    (fun pp hpp => by
      rw [show strchrIdx "int x;".toList '(' = none from by decide] at hpp
      exact Option.noConfusion hpp)
    (by decide) (by decide) (by decide) rfl).1
  exact h

/-- Claim C5: the tracker invariant `0 ≤ depth ≤ MAX_BLOCK_DEPTH - 1` with the
`statement_seen` array at its fixed length holds after every brace-update
step, after every processed line, and after any sequence of processed lines;
an extra `{` at the maximum depth does not increment, a `}` at depth 0 does
not decrement, and under the invariant the `statement_seen` index in use
(the current depth) is within the array bounds. -/
theorem c5_theorem :
    (∀ (ps : ParseState) (c : Char), GoodParse ps → GoodParse (braceStep ps c)) ∧
    (∀ ps : ParseState, ps.brace_depth = MAX_BLOCK_DEPTH - 1 →
      (braceStep ps '\x7b').brace_depth = ps.brace_depth) ∧
    (∀ ps : ParseState, ps.brace_depth = 0 → (braceStep ps '\x7d').brace_depth = 0) ∧
    (∀ ps : ParseState, GoodParse ps → ps.brace_depth < ps.statement_seen.length) ∧
    (∀ (cfg : Config) (line : List Char) (line_num : Nat) (fname : List Char)
        (ps : ParseState) (es : ErrorState), GoodParse ps →
      GoodParse (process_line cfg line line_num fname ps es).1) ∧
    (∀ (cfg : Config) (fname : List Char) (lines : List (List Char)) (n : Nat)
        (ps : ParseState) (es : ErrorState), GoodParse ps →
      GoodParse (process_lines cfg fname lines n ps es).1) := by
  refine ⟨?_, ?_, ?_, ?_, ?_, ?_⟩
  · intro ps c h
    refine ⟨?_, ?_⟩
    · rw [braceStep_depth]
      exact depthStep_le _ _ h.1
    · rw [braceStep_len]
      exact h.2
  · intro ps h
    unfold braceStep
    rw [if_pos rfl, if_neg (by omega)]
  · intro ps h
    unfold braceStep
    rw [if_neg (by decide), if_pos rfl, if_neg (by omega)]
    exact h
  · intro ps h
    have := h.1
    rw [h.2]
    unfold MAX_BLOCK_DEPTH at *
    omega
  · intro cfg line line_num fname ps es h
    exact process_line_inv cfg line line_num fname ps es h
  · intro cfg fname lines n ps es h
    exact process_lines_inv cfg fname lines n ps es h

/-- Witness for C5: `c5_theorem` discharged on a concrete two-line file with
unbalanced braces, starting from the zeroed state. -/
theorem c5_theorem_witness :
    GoodParse (process_lines defaultConfig "t.c".toList
      ["x(); \x7b \x7b".toList, "\x7d".toList] 1 ParseState.init
      ErrorState.init).1 :=
  c5_theorem.2.2.2.2.2 defaultConfig "t.c".toList
    ["x(); \x7b \x7b".toList, "\x7d".toList] 1 ParseState.init ErrorState.init
    (by constructor <;> decide)

/-- Claim C6: at end of file, when at least one enter (Forbid) call was seen
and no leave (Permit) call, finalization emits "Forbid() used without
matching Permit()" at `enter_line`, plus — when `active` is still true —
"File ends with active Forbid() without matching Permit()" at `enter_line`
(so a file whose only call is one enter yields both); and when no enter or
leave call was seen at all, finalization emits nothing. -/
theorem c6_theorem (fname : List Char) (ps : ParseState) (es : ErrorState)
    (hroom : es.error_count + 2 ≤ MAX_ERRORS) :
    (0 < ps.forbid_count → ps.permit_count = 0 →
      (validate_forbid_permit_pairs fname ps es).errors =
        es.errors ++
          (⟨fname.take (MAX_FILENAME_LENGTH - 1), ps.forbid_line, 1,
            ErrorType.warnErr, msgForbidUnmatched, []⟩ ::
            (if ps.forbid_active then
              [⟨fname.take (MAX_FILENAME_LENGTH - 1), ps.forbid_line, 1,
                ErrorType.warnErr, msgEndsActive, []⟩]
            else []))) ∧
    (ps.forbid_count = 0 → ps.permit_count = 0 →
      validate_forbid_permit_pairs fname ps es = es) := by
  have hm1 : msgForbidUnmatched.take 255 = msgForbidUnmatched := by decide
  have hm2 : msgEndsActive.take 255 = msgEndsActive := by decide
  have hx : mkExcerpt none = ([] : List Char) := rfl
  constructor
  · intro h1 h2
    have hr1 : es.error_count < MAX_ERRORS := by omega
    unfold validate_forbid_permit_pairs add_error
    rw [add_excerpt_spec es fname ps.forbid_line 1 ErrorType.warnErr
      msgForbidUnmatched none hr1]
    rw [if_pos (show (0 < ps.forbid_count || 0 < ps.permit_count) = true by
      simp [h1])]
    rw [if_pos (show (0 < ps.forbid_count && ps.permit_count = 0) = true by
      simp [h1, h2])]
    by_cases hact : ps.forbid_active = true
    · rw [if_pos hact]
      rw [add_excerpt_spec _ fname ps.forbid_line 1 ErrorType.warnErr
        msgEndsActive none (by simp; omega)]
      simp [hm1, hm2, hx, hact]
    · rw [if_neg hact]
      simp only [Bool.not_eq_true] at hact
      simp [hm1, hx, hact]
  · intro h1 h2
    unfold validate_forbid_permit_pairs
    rw [if_neg (by simp [h1, h2])]

/-- Witness for C6: `c6_theorem` discharged for the state left by a file whose
only call line is one `Forbid()` (count 1, no Permit, still active, entered
at line 1): both finalization diagnostics appear; and for the zeroed state:
nothing appears. -/
theorem c6_theorem_witness :
    (validate_forbid_permit_pairs "t.c".toList
      { ParseState.init with
          forbid_active := true, forbid_line := 1, forbid_count := 1 }
      ErrorState.init).errors =
      [⟨"t.c".toList, 1, 1, ErrorType.warnErr, msgForbidUnmatched, []⟩,
       ⟨"t.c".toList, 1, 1, ErrorType.warnErr, msgEndsActive, []⟩] ∧
    validate_forbid_permit_pairs "t.c".toList ParseState.init ErrorState.init =
      ErrorState.init := by
  have h1 := c6_theorem "t.c".toList
    { ParseState.init with
        forbid_active := true, forbid_line := 1, forbid_count := 1 }
    ErrorState.init (by decide)
  have h2 := c6_theorem "t.c".toList ParseState.init ErrorState.init (by decide)
  exact ⟨h1.1 (by decide) rfl, h2.2 rfl rfl⟩

/-- Claim C7: when a leave (Permit) pattern is found on a line, no enter
pattern is on the line, and `active` is true, the "too many lines" diagnostic
is emitted for that line exactly when `line_number - enter_line` exceeds 5,
and it is the only diagnostic of the event; the pair is closed
(`active := false`, `leave_line := line_number`). In particular 3 lines of
distance produce zero distance diagnostics and 7 produce exactly one. -/
theorem c7_theorem (line : List Char) (line_num : Nat) (fname orig : List Char)
    (ps : ParseState) (es : ErrorState) (pp : Nat)
    (hf : forbidPos line = none) (hp : permitPos line = some pp)
    (hact : ps.forbid_active = true) (hroom : es.error_count < MAX_ERRORS) :
    (check_forbid_permit_pairs line line_num fname orig ps es).2.errors =
      es.errors ++
        (if 5 < line_num - ps.forbid_line then
          [⟨fname.take (MAX_FILENAME_LENGTH - 1), line_num, pp + 1,
            ErrorType.warnErr, msgTooManyLines, mkExcerpt (some orig)⟩]
        else []) ∧
    (check_forbid_permit_pairs line line_num fname orig ps es).1.forbid_active =
      false ∧
    (check_forbid_permit_pairs line line_num fname orig ps es).1.permit_line =
      line_num := by
  have hm : msgTooManyLines.take 255 = msgTooManyLines := by decide
  unfold check_forbid_permit_pairs
  rw [hf, hp]
  dsimp only
  rw [if_neg (by simp [hact])]
  by_cases hdist : 5 < line_num - ps.forbid_line
  · rw [if_pos hdist, if_pos hdist,
      add_excerpt_spec es fname line_num (pp + 1) ErrorType.warnErr
        msgTooManyLines (some orig) hroom]
    simp [hm]
  · rw [if_neg hdist, if_neg hdist]
    simp

/-- Witness for C7: `c7_theorem` discharged twice on the line `Permit();` —
with the enter at line 1 and the leave at line 4 (distance 3: no distance
diagnostic) and with the leave at line 8 (distance 7: exactly one). -/
theorem c7_theorem_witness :
    (check_forbid_permit_pairs "Permit();".toList 4 "t.c".toList
      "Permit();".toList
      { ParseState.init with forbid_active := true, forbid_line := 1 }
      ErrorState.init).2.errors = [] ∧
    (check_forbid_permit_pairs "Permit();".toList 8 "t.c".toList
      "Permit();".toList
      { ParseState.init with forbid_active := true, forbid_line := 1 }
      ErrorState.init).2.errors =
      [⟨"t.c".toList, 8, 1, ErrorType.warnErr, msgTooManyLines,
        mkExcerpt (some "Permit();".toList)⟩] := by
  have h1 := c7_theorem "Permit();".toList 4 "t.c".toList "Permit();".toList
    { ParseState.init with forbid_active := true, forbid_line := 1 }
    ErrorState.init 0 (by decide) (by decide) rfl (by decide)
  have h2 := c7_theorem "Permit();".toList 8 "t.c".toList "Permit();".toList
    { ParseState.init with forbid_active := true, forbid_line := 1 }
    ErrorState.init 0 (by decide) (by decide) rfl (by decide)
  exact ⟨h1.1, h2.1⟩

lemma sinkOp_stuck (es : ErrorState) (op : SinkOp)
    (h : es.error_count = MAX_ERRORS + 1) : applySinkOp es op = es := by
  cases op with
  | report fname line col ty msg x =>
    unfold applySinkOp add_error_with_excerpt
    dsimp only
    rw [if_pos (show es.error_count ≥ MAX_ERRORS by omega),
      if_neg (show ¬es.error_count = MAX_ERRORS by omega)]
  | codexNote fname line comment =>
    unfold applySinkOp add_codex_comment
    dsimp only
    rw [if_pos (show es.error_count ≥ MAX_ERRORS by omega),
      if_neg (show ¬es.error_count = MAX_ERRORS by omega)]

lemma sinkOp_first (es : ErrorState) (op : SinkOp)
    (h : es.error_count = MAX_ERRORS) :
    applySinkOp es op =
      { es with error_count := es.error_count + 1,
                overflow_notices := es.overflow_notices + 1 } := by
  cases op with
  | report fname line col ty msg x =>
    unfold applySinkOp add_error_with_excerpt
    dsimp only
    rw [if_pos (show es.error_count ≥ MAX_ERRORS by omega), if_pos h]
  | codexNote fname line comment =>
    unfold applySinkOp add_codex_comment
    dsimp only
    rw [if_pos (show es.error_count ≥ MAX_ERRORS by omega), if_pos h]

lemma sinkOps_stuck (ops : List SinkOp) :
    ∀ es : ErrorState, es.error_count = MAX_ERRORS + 1 →
      applySinkOps ops es = es := by
  induction ops with
  | nil => intro es _; rfl
  | cons op rest ih =>
    intro es h
    unfold applySinkOps
    rw [List.foldl_cons, sinkOp_stuck es op h]
    exact ih es h

/-- Claim C8: once the store holds `MAX_ERRORS` records (so `error_count`
equals the capacity), any nonempty sequence of further add attempts — through
`add_error_with_excerpt`, `add_error` or `add_codex_comment` — leaves the
stored records unchanged and prints the overflow notice exactly once in
total, and each attempt returns normally so processing continues. -/
theorem c8_theorem (es : ErrorState) (ops : List SinkOp)
    (hfull : es.errors.length = MAX_ERRORS)
    (hcnt : es.error_count = MAX_ERRORS) (hops : ops ≠ []) :
    (applySinkOps ops es).errors = es.errors ∧
    (applySinkOps ops es).overflow_notices = es.overflow_notices + 1 := by
  cases ops with
  | nil => exact absurd rfl hops
  | cons op rest =>
    have h1 := sinkOp_first es op hcnt
    have h2 : (applySinkOp es op).error_count = MAX_ERRORS + 1 := by
      rw [h1]
      dsimp only
      omega
    unfold applySinkOps
    rw [List.foldl_cons,
      show List.foldl applySinkOp (applySinkOp es op) rest =
        applySinkOps rest (applySinkOp es op) from rfl,
      sinkOps_stuck rest _ h2, h1]
    exact ⟨rfl, rfl⟩

/-- Witness for C8: `c8_theorem` discharged on a store holding exactly
`MAX_ERRORS` records and one further add attempt. -/
theorem c8_theorem_witness :
    (applySinkOps [SinkOp.report [] 1 1 ErrorType.synErr [] none]
      ⟨List.replicate MAX_ERRORS ⟨[], 0, 0, ErrorType.synErr, [], []⟩,
        MAX_ERRORS, 0⟩).errors =
      List.replicate MAX_ERRORS ⟨[], 0, 0, ErrorType.synErr, [], []⟩ ∧
    (applySinkOps [SinkOp.report [] 1 1 ErrorType.synErr [] none]
      ⟨List.replicate MAX_ERRORS ⟨[], 0, 0, ErrorType.synErr, [], []⟩,
        MAX_ERRORS, 0⟩).overflow_notices = 1 := by
  have h := c8_theorem
    ⟨List.replicate MAX_ERRORS ⟨[], 0, 0, ErrorType.synErr, [], []⟩,
      MAX_ERRORS, 0⟩
    [SinkOp.report [] 1 1 ErrorType.synErr [] none]
    (by simp) rfl (by simp)
  exact ⟨h.1, h.2⟩

/-- Claim C9: inside a quoted region, a backslash followed by any character is
copied verbatim and the quote flags are passed on unchanged (so an escaped
quote cannot close the literal); a backslash that is the line's final
character fails the `*(s+1) != '\0'` test and is copied as a plain character,
ending the scan without reading further. -/
theorem c9_theorem (cfg : Config) (fname orig : List Char)
    (line_num initial fuel pos : Nat) (instr inch : Bool) (es : ErrorState)
    (c2 : Char) (rest : List Char) (h : (instr || inch) = true) :
    sanitize_loop cfg fname orig line_num initial (fuel + 1)
        ('\\' :: c2 :: rest) pos false instr inch es =
      ⟨'\\' :: c2 ::
          (sanitize_loop cfg fname orig line_num initial fuel rest (pos + 2)
            false instr inch es).clean,
        (sanitize_loop cfg fname orig line_num initial fuel rest (pos + 2)
          false instr inch es).incm,
        (sanitize_loop cfg fname orig line_num initial fuel rest (pos + 2)
          false instr inch es).es,
        (sanitize_loop cfg fname orig line_num initial fuel rest (pos + 2)
          false instr inch es).early⟩ ∧
    sanitize_loop cfg fname orig line_num initial (fuel + 1) ['\\'] pos false
        instr inch es =
      ⟨['\\'], false, es, false⟩ := by
  constructor
  · simp [sanitize_loop, h]
  · simp [sanitize_loop]

/-- Witness for C9: `c9_theorem` discharged inside a double-quoted region on
the two-character input `\"` and on the single-character input `\`. -/
theorem c9_theorem_witness :
    sanitize_loop defaultConfig "t.c".toList "t".toList 1 0 1
        ['\\', '\x22'] 0 false true false ErrorState.init =
      ⟨['\\', '\x22'], false, ErrorState.init, false⟩ ∧
    sanitize_loop defaultConfig "t.c".toList "t".toList 1 0 1 ['\\'] 0 false
        true false ErrorState.init =
      ⟨['\\'], false, ErrorState.init, false⟩ :=
  ⟨(c9_theorem defaultConfig "t.c".toList "t".toList 1 0 0 0 true false
      ErrorState.init '\x22' [] rfl).1,
   (c9_theorem defaultConfig "t.c".toList "t".toList 1 0 0 0 true false
      ErrorState.init '\x22' [] rfl).2⟩

/-- Claim C10, counterexample. The claim states that a line whose original
text contains `$CODEX:`, whose sanitized text is non-empty, and for which no
diagnostic fired earlier always gains a comment-kind diagnostic. On the line
`foo(); /* $CODEX:` (marker present, sanitized text `foo(); `, no other
diagnostic fires under the default configuration) nothing at all is
recorded, because nothing but whitespace follows the marker. -/
theorem c10_counterexample :
    (process_line defaultConfig "foo(); /* $CODEX:".toList 1 "t.c".toList
      ParseState.init ErrorState.init).2.errors = [] ∧
    (strstrDrop ("foo(); /* $CODEX:".toList.take (MAX_LINE_LENGTH - 1))
      codexMarker).isSome = true ∧
    find_first_non_whitespace (clean_of defaultConfig "foo(); /* $CODEX:".toList
      1 "t.c".toList ParseState.init ErrorState.init) ≠ [] := by
  decide

/-- Claim C10, amended: under the additional condition that some character
other than space and tab follows the `$CODEX:` marker, the guarded comment
phase appends exactly one comment-kind record at column 1 whose message is
the text after the marker with leading spaces/tabs skipped, truncated at the
first `/` or `*` (and capped at 255 characters); and if any diagnostic
already fired for the line (the count moved off `initial`), the phase records
nothing. -/
theorem c10_theorem (fname orig : List Char) (line_num initial : Nat)
    (es : ErrorState) (suf : List Char)
    (hsuf : strstrDrop orig codexMarker = some suf)
    (hrest : (suf.drop 7).dropWhile (fun c => c = ' ' || c = '\t') ≠ [])
    (hcnt : es.error_count = initial) (hroom : es.error_count < MAX_ERRORS) :
    codex_phase initial fname orig line_num es =
      { es with
        errors := es.errors ++
          [⟨fname.take (MAX_FILENAME_LENGTH - 1), line_num, 1,
            ErrorType.commentErr,
            (((suf.drop 7).dropWhile (fun c => c = ' ' || c = '\t')).takeWhile
              (fun c => c ≠ '/' && c ≠ '*')).take 255, []⟩],
        error_count := es.error_count + 1 } ∧
    (∀ es2 : ErrorState, es2.error_count ≠ initial →
      codex_phase initial fname orig line_num es2 = es2) := by
  constructor
  · unfold codex_phase codex_step
    rw [if_pos hcnt, hsuf]
    dsimp only
    cases hcs : (suf.drop 7).dropWhile (fun c => c = ' ' || c = '\t') with
    | nil => exact absurd hcs hrest
    | cons c0 cs =>
      dsimp only
      rw [add_codex_spec es fname line_num _ hroom]
      rw [← hcs]
      simp [List.take_take]
  · intro es2 h2
    unfold codex_phase
    rw [if_neg h2]

/-- Witness for C10: `c10_theorem` discharged on the line
`foo(); /* $CODEX: check this */`, whose marker is followed by real text. -/
theorem c10_theorem_witness :
    codex_phase 0 "t.c".toList "foo(); /* $CODEX: check this */".toList 1
      ErrorState.init =
      { ErrorState.init with
        errors := [⟨"t.c".toList, 1, 1, ErrorType.commentErr,
          "check this ".toList, []⟩],
        error_count := 1 } ∧
    (∀ es2 : ErrorState, es2.error_count ≠ 0 →
      codex_phase 0 "t.c".toList "foo(); /* $CODEX: check this */".toList 1
        es2 = es2) := by
  have h := c10_theorem "t.c".toList "foo(); /* $CODEX: check this */".toList
    1 0 ErrorState.init "$CODEX: check this */".toList (by decide) (by decide)
    rfl (by decide)
  exact ⟨h.1, h.2⟩

end Codex
